import Mathlib

/-!
Parking-slot controller (`Core/Src/main.c`)

A shallow embedding of the slot state machine of `main.c`.

* `uint32_t` values are natural numbers; every C addition or subtraction on
  them is followed by `% UINT32_MOD`.
* The globals the logic reads and writes (`parking_state`, the debounce
  bookkeeping, the level of the LED pin and the stream handed to the UART)
  are the fields of `Machine`; every C function becomes a function
  `Machine → Machine` (or returns a pair when the C function returns a value).
* What a C function reads from the hardware (the value returned by
  `DS1307_GetTimestamp()`, a pin level, `HAL_GetTick()`, a received byte) is an
  argument of the Lean function.
-/

namespace AutomatParcare

/-! ## Constants -/

/-- Number of values of a `uint32_t`. -/
def UINT32_MOD : Nat := 2 ^ 32

/-- Grace time after expiry, in minutes (`#define T1_MINUTES 10`). -/
def T1_MINUTES : Nat := 10

/-- Reservation time per coin, in minutes (`#define T2_MINUTES 30`). -/
def T2_MINUTES : Nat := 30

/-- Debounce delay of the button, in ms (`#define DEBOUNCE_DELAY 50`). -/
def DEBOUNCE_DELAY : Nat := 50

/-! ## State -/

/-- The C struct `ParkingState_t`. -/
structure ParkingState_t where
  /-- TRUE when the slot is physically occupied -/
  loc_ocupat : Bool
  /-- TRUE when the slot is reserved (paid) -/
  loc_rezervat : Bool
  /-- Timestamp at which the reservation expires -/
  timp_rezervare : Nat
  /-- Timestamp at which the slot was occupied -/
  timp_ocupare : Nat
  /-- Number of coins received -/
  monede_primite : Nat
deriving DecidableEq, Repr

/-- The globals of `main.c` together with the two outputs of the program:
the level of the LED pin (PB0) and the messages handed to
`UART_SendMessage`, oldest first. -/
structure Machine where
  parking_state : ParkingState_t
  buton_apasat_anterior : Bool
  last_button_time : Nat
  led : Bool
  uart_tx : List String
deriving DecidableEq, Repr

/-- The value `ParkingState_t parking_state = {0}`. -/
def parking_state_init : ParkingState_t :=
  { loc_ocupat := false, loc_rezervat := false, timp_rezervare := 0,
    timp_ocupare := 0, monede_primite := 0 }

/-- The globals at startup: `parking_state = {0}`,
`buton_apasat_anterior = false`, `last_button_time = 0`; the LED pin is low
after reset and nothing has been sent yet. -/
def Machine.init : Machine :=
  { parking_state := parking_state_init, buton_apasat_anterior := false,
    last_button_time := 0, led := false, uart_tx := [] }

/-! ## Utility functions -/

/-- The C struct `RTC_TimeTypeDef` of the HAL: a time of day. -/
structure RTC_TimeTypeDef where
  Hours : Nat
  Minutes : Nat
  Seconds : Nat
deriving DecidableEq, Repr

/-- The C struct `RTC_DateTypeDef` of the HAL: a calendar date (week day,
month, day of the month, two-digit year). The program reads only `Date`. -/
structure RTC_DateTypeDef where
  WeekDay : Nat
  Month : Nat
  Date : Nat
  Year : Nat
deriving DecidableEq, Repr

/-- `DS1307_GetTimestamp`: `sTime` and `sDate` are what `HAL_RTC_GetTime` and
`HAL_RTC_GetDate` deliver (`none` when the call does not return `HAL_OK`),
`hal_tick` is the value of `HAL_GetTick()`. -/
def DS1307_GetTimestamp (sTime : Option RTC_TimeTypeDef)
    (sDate : Option RTC_DateTypeDef) (hal_tick : Nat) : Nat :=
  match sTime with
  | none => hal_tick / 1000
  | some tm =>
    match sDate with
    | none => hal_tick / 1000
    | some d =>
      (d.Date * 24 * 3600 + tm.Hours * 3600 + tm.Minutes * 60 + tm.Seconds)
        % UINT32_MOD

/-- `Button_ReadWithDebounce`: `buton_actual` is the level read on PA1
(true when the pin is low), `timp_curent` the value of `HAL_GetTick()`.
Returns the result of the C function and the updated globals. -/
def Button_ReadWithDebounce (buton_actual : Bool) (timp_curent : Nat)
    (m : Machine) : Bool × Machine :=
  if buton_actual && !m.buton_apasat_anterior &&
      decide ((timp_curent + UINT32_MOD - m.last_button_time) % UINT32_MOD
        > DEBOUNCE_DELAY) then
    (true, { m with last_button_time := timp_curent,
                    buton_apasat_anterior := buton_actual })
  else
    (false, { m with buton_apasat_anterior := buton_actual })

/-- `LED_SetState`: drives pin PB0. -/
def LED_SetState (state : Bool) (m : Machine) : Machine :=
  { m with led := state }

/-- `UART_SendMessage`: hands one message to the UART. -/
def UART_SendMessage (message : String) (m : Machine) : Machine :=
  { m with uart_tx := m.uart_tx ++ [message] }

/-- The conversion `%02lu` of `sprintf`: decimal, at least two characters,
padded on the left with `0`. -/
def fmt02lu (n : Nat) : String :=
  if n < 10 then "0" ++ Nat.repr n else Nat.repr n

/-- `PrintTimestamp`: the text written into `buffer`. -/
def PrintTimestamp (timestamp : Nat) : String :=
  let ore := (timestamp / 3600) % 24
  let minute := (timestamp / 60) % 60
  let secunde := timestamp % 60
  fmt02lu ore ++ ":" ++ fmt02lu minute ++ ":" ++ fmt02lu secunde

/-! ## Parking management logic -/

/-- `ProcessCoin`; `timp_curent` is the value of `DS1307_GetTimestamp()`. -/
def ProcessCoin (timp_curent : Nat) (m : Machine) : Machine :=
  let ps := m.parking_state
  let ps1 : ParkingState_t :=
    { ps with monede_primite := (ps.monede_primite + 1) % UINT32_MOD,
              loc_rezervat := true }
  let ps2 : ParkingState_t :=
    if ps1.timp_rezervare < timp_curent then
      { ps1 with timp_rezervare := (timp_curent + T2_MINUTES * 60) % UINT32_MOD }
    else
      { ps1 with
        timp_rezervare := (ps1.timp_rezervare + T2_MINUTES * 60) % UINT32_MOD }
  let m1 : Machine := { m with parking_state := ps2 }
  let m2 := UART_SendMessage
    ("[" ++ PrintTimestamp timp_curent ++ "] Moneda primita! Rezervat pana la ") m1
  UART_SendMessage (PrintTimestamp ps2.timp_rezervare ++ "\r\n") m2

/-- `ProcessParkingOccupied`; `timp_curent` is the value of
`DS1307_GetTimestamp()`. -/
def ProcessParkingOccupied (timp_curent : Nat) (m : Machine) : Machine :=
  if !m.parking_state.loc_ocupat then
    let ps : ParkingState_t :=
      { m.parking_state with loc_ocupat := true, timp_ocupare := timp_curent }
    UART_SendMessage ("[" ++ PrintTimestamp ps.timp_ocupare ++ "] Loc ocupat!\r\n")
      { m with parking_state := ps }
  else m

/-- `ProcessParkingFree`; `timp_eliberare` is the value of
`DS1307_GetTimestamp()`. -/
def ProcessParkingFree (timp_eliberare : Nat) (m : Machine) : Machine :=
  if m.parking_state.loc_ocupat then
    let ps : ParkingState_t := { m.parking_state with loc_ocupat := false }
    UART_SendMessage ("[" ++ PrintTimestamp timp_eliberare ++ "] Loc eliberat!\r\n")
      { m with parking_state := ps }
  else m

/-- `CheckControllerAlert`; `timp_curent` is the value of
`DS1307_GetTimestamp()`. -/
def CheckControllerAlert (timp_curent : Nat) (m : Machine) : Machine :=
  if m.parking_state.loc_ocupat && !m.parking_state.loc_rezervat &&
      decide (timp_curent >
        (m.parking_state.timp_rezervare + T1_MINUTES * 60) % UINT32_MOD) then
    UART_SendMessage
      ("[" ++ PrintTimestamp timp_curent ++ "] ALERT: Controlor chemat!\r\n")
      (LED_SetState true m)
  else
    LED_SetState false m

/-- `UpdateReservationStatus`; `timp_curent` is the value of
`DS1307_GetTimestamp()`. -/
def UpdateReservationStatus (timp_curent : Nat) (m : Machine) : Machine :=
  if m.parking_state.loc_rezervat &&
      decide (timp_curent > m.parking_state.timp_rezervare) then
    let ps : ParkingState_t := { m.parking_state with loc_rezervat := false }
    UART_SendMessage
      ("[" ++ PrintTimestamp timp_curent ++ "] Rezervare expirata!\r\n")
      { m with parking_state := ps }
  else m

/-- `ProcessUARTCommand`; `received` is the byte delivered by
`HAL_UART_Receive` (`none` when it does not return `HAL_OK`), `timp_curent`
the value of `DS1307_GetTimestamp()`. -/
def ProcessUARTCommand (received : Option Nat) (timp_curent : Nat)
    (m : Machine) : Machine :=
  match received with
  | none => m
  | some received_char =>
    if received_char = '?'.toNat then
      let timp_str := PrintTimestamp timp_curent
      let buffer :=
        if m.parking_state.loc_rezervat then
          "[" ++ timp_str ++ "] Status: REZERVAT pana la " ++
            PrintTimestamp m.parking_state.timp_rezervare ++ "\r\n"
        else
          "[" ++ timp_str ++ "] Status: LIBER\r\n"
      UART_SendMessage buffer m
    else m

/-! ## Main loop -/

/-- Step 2 of the loop body, second half (`if (pir_activ) ... else ...`):
the occupancy handling. -/
def ProcessOccupancy (pir_activ : Bool) (timp_curent : Nat) (m : Machine) :
    Machine :=
  if pir_activ then ProcessParkingOccupied timp_curent m
  else ProcessParkingFree timp_curent m

/-- The values `DS1307_GetTimestamp()` returns to the five functions the loop
body calls, in calling order. -/
structure ClockReads where
  t_coin : Nat
  t_occupancy : Nat
  t_update : Nat
  t_alert : Nat
  t_command : Nat
deriving DecidableEq, Repr

/-- The clock shows the same second during the whole loop iteration. -/
def ClockReads.const (now : Nat) : ClockReads :=
  { t_coin := now, t_occupancy := now, t_update := now, t_alert := now,
    t_command := now }

/-- Steps 2 to 4 of the loop body of `main`, given the two sensor results of
step 1. -/
def main_loop_process (pir_activ moneda_primita : Bool) (clk : ClockReads)
    (received : Option Nat) (m : Machine) : Machine :=
  let m1 := if moneda_primita then ProcessCoin clk.t_coin m else m
  let m2 := ProcessOccupancy pir_activ clk.t_occupancy m1
  let m3 := UpdateReservationStatus clk.t_update m2
  let m4 := CheckControllerAlert clk.t_alert m3
  ProcessUARTCommand received clk.t_command m4

/-- One iteration of `while (1)` in `main`: `pir_activ` is the result of
`PIR_ReadSensor()`, `buton_actual` and `hal_tick` are what
`Button_ReadWithDebounce` reads. -/
def main_loop_iteration (pir_activ buton_actual : Bool) (hal_tick : Nat)
    (clk : ClockReads) (received : Option Nat) (m : Machine) : Machine :=
  let r := Button_ReadWithDebounce buton_actual hal_tick m
  main_loop_process pir_activ r.1 clk received r.2

/-- What one loop iteration is given in a run where the clock is read once
per tick: the two sensor results, the timestamp and the received byte. -/
structure TickEvents where
  moneda_primita : Bool
  pir_activ : Bool
  now : Nat
  received : Option Nat
deriving DecidableEq, Repr

/-- One tick: steps 2 to 4 of the loop body with a single timestamp. -/
def tick (m : Machine) (e : TickEvents) : Machine :=
  main_loop_process e.pir_activ e.moneda_primita (ClockReads.const e.now)
    e.received m

/-- The machine after a sequence of ticks. -/
def run (m : Machine) (es : List TickEvents) : Machine :=
  es.foldl tick m

/-- The machine after a sequence of payment events at the given timestamps. -/
def payments (m : Machine) (nows : List Nat) : Machine :=
  nows.foldl (fun acc now => ProcessCoin now acc) m

/-- The slot state of the never-paid scenario: occupancy detected at `t = 0`
on the zero-initialised machine, no payment ever made. -/
def neverPaid : Machine := ProcessParkingOccupied 0 Machine.init

/-- A slot with an active reservation until `1800`, occupied. -/
def reservedUntil1800 : Machine :=
  { Machine.init with
    parking_state :=
      { parking_state_init with
        loc_ocupat := true, loc_rezervat := true, timp_rezervare := 1800 } }

/-- The slot after `2386092` stacked payments, all at `now = 0`: the
reservation runs until `1800 * 2386092 = 4294965600`. -/
def stackedPayments : Machine :=
  { Machine.init with
    parking_state :=
      { parking_state_init with
        loc_rezervat := true, timp_rezervare := 4294965600,
        monede_primite := 2386092 } }

/-- A run of two ticks: a payment on an occupied slot at `now = 0`, then a
tick without payment at `now = 1801`. -/
def paidThenExpired : List TickEvents :=
  [ { moneda_primita := true, pir_activ := true, now := 0, received := none },
    { moneda_primita := false, pir_activ := true, now := 1801, received := none } ]

/-- One call of `Button_ReadWithDebounce`: the level read on the button pin
and the value of `HAL_GetTick()`. -/
structure Poll where
  buton_actual : Bool
  timp_curent : Nat
deriving DecidableEq, Repr

/-- The results of a sequence of calls of `Button_ReadWithDebounce`, in
order, starting from the globals `m`. -/
def pollResults (m : Machine) : List Poll → List Bool
  | [] => []
  | p :: ps =>
    (Button_ReadWithDebounce p.buton_actual p.timp_curent m).1 ::
      pollResults (Button_ReadWithDebounce p.buton_actual p.timp_curent m).2 ps

/-- Number of polls of the sequence that fire. -/
def fireCount (m : Machine) (ps : List Poll) : Nat :=
  (pollResults m ps).count true

/-- Number of polls of the sequence at which the level read is active while
the level recorded at the previous poll (`prev` for the first one) was
inactive. -/
def risingEdges (prev : Bool) : List Poll → Nat
  | [] => 0
  | p :: ps =>
    (if p.buton_actual && !prev then 1 else 0) + risingEdges p.buton_actual ps

/-- Press at 100 ms, release at 130 ms, press at 160 ms. -/
def pressReleasePress : List Poll :=
  [ { buton_actual := true, timp_curent := 100 },
    { buton_actual := false, timp_curent := 130 },
    { buton_actual := true, timp_curent := 160 } ]

/-- A press read at 100 ms and still read at 110 ms. -/
def sustainedPress : List Poll :=
  [ { buton_actual := true, timp_curent := 100 },
    { buton_actual := true, timp_curent := 110 } ]

/-- Press at 100 ms, release at 110 ms, press again at 120 ms. -/
def bouncingPress : List Poll :=
  [ { buton_actual := true, timp_curent := 100 },
    { buton_actual := false, timp_curent := 110 },
    { buton_actual := true, timp_curent := 120 } ]

/-- Press at 100 ms, release at 200 ms, press at 300 ms: polls 100 ms apart,
as the delay at the end of the loop body spaces them. -/
def spacedPresses : List Poll :=
  [ { buton_actual := true, timp_curent := 100 },
    { buton_actual := false, timp_curent := 200 },
    { buton_actual := true, timp_curent := 300 } ]

/-- The fields of an RTC reading are in their calendar ranges: month 1 to 12,
day of the month 1 to 31, year 0 to 99, hours below 24, minutes and seconds
below 60. -/
def validReading (d : RTC_DateTypeDef) (t : RTC_TimeTypeDef) : Prop :=
  1 ≤ d.Month ∧ d.Month ≤ 12 ∧ 1 ≤ d.Date ∧ d.Date ≤ 31 ∧ d.Year ≤ 99 ∧
    t.Hours < 24 ∧ t.Minutes < 60 ∧ t.Seconds < 60

instance (d : RTC_DateTypeDef) (t : RTC_TimeTypeDef) : Decidable (validReading d t) := by
  unfold validReading
  infer_instance

/-- The reading `(d2, t2)` is chronologically later than or equal to the
reading `(d1, t1)`: year, month, day, hours, minutes, seconds compared in this
order. -/
def laterOrEqual (d1 : RTC_DateTypeDef) (t1 : RTC_TimeTypeDef)
    (d2 : RTC_DateTypeDef) (t2 : RTC_TimeTypeDef) : Prop :=
  d1.Year < d2.Year ∨ (d1.Year = d2.Year ∧
    (d1.Month < d2.Month ∨ (d1.Month = d2.Month ∧
      (d1.Date < d2.Date ∨ (d1.Date = d2.Date ∧
        (t1.Hours < t2.Hours ∨ (t1.Hours = t2.Hours ∧
          (t1.Minutes < t2.Minutes ∨ (t1.Minutes = t2.Minutes ∧
            t1.Seconds ≤ t2.Seconds)))))))))

instance (d1 : RTC_DateTypeDef) (t1 : RTC_TimeTypeDef) (d2 : RTC_DateTypeDef)
    (t2 : RTC_TimeTypeDef) : Decidable (laterOrEqual d1 t1 d2 t2) := by
  unfold laterOrEqual
  infer_instance

/-- Wednesday 31 January of year 24. -/
def jan31 : RTC_DateTypeDef := { WeekDay := 3, Month := 1, Date := 31, Year := 24 }

/-- Thursday 1 February of year 24. -/
def feb01 : RTC_DateTypeDef := { WeekDay := 4, Month := 2, Date := 1, Year := 24 }

/-- Tuesday 30 January of year 24. -/
def jan30 : RTC_DateTypeDef := { WeekDay := 2, Month := 1, Date := 30, Year := 24 }

/-- The last second of a day. -/
def endOfDay : RTC_TimeTypeDef := { Hours := 23, Minutes := 59, Seconds := 59 }

/-- The first second of a day. -/
def midnight : RTC_TimeTypeDef := { Hours := 0, Minutes := 0, Seconds := 0 }

/-- The tick times of the polls of the sequence at which the level read is
active while the level recorded at the previous poll (`prev` for the first
one) was inactive, in order. -/
def risingTicks (prev : Bool) : List Poll → List Nat
  | [] => []
  | p :: ps =>
    if p.buton_actual && !prev then p.timp_curent :: risingTicks p.buton_actual ps
    else risingTicks p.buton_actual ps

/-! ## Basic facts about the operations -/

theorem UART_SendMessage_parking_state (msg : String) (m : Machine) :
    (UART_SendMessage msg m).parking_state = m.parking_state := rfl

theorem LED_SetState_parking_state (b : Bool) (m : Machine) :
    (LED_SetState b m).parking_state = m.parking_state := rfl

theorem CheckControllerAlert_parking_state (now : Nat) (m : Machine) :
    (CheckControllerAlert now m).parking_state = m.parking_state := by
  unfold CheckControllerAlert
  split <;> rfl

theorem ProcessUARTCommand_parking_state (received : Option Nat) (now : Nat)
    (m : Machine) :
    (ProcessUARTCommand received now m).parking_state = m.parking_state := by
  unfold ProcessUARTCommand
  cases received with
  | none => rfl
  | some c =>
    simp only []
    split <;> rfl

/-! ## Claims -/

/-- C1: `ProcessCoin` (on_payment_event). When `now + 1800` and
`reservation_expiry + 1800` do not exceed `2^32 - 1`, the state after the
payment has `reservation_expiry = max(reservation_expiry, now) + 1800`,
`reserved = true`, `coins_received` incremented modulo `2^32`, and `occupied`
and `occupied_since` unchanged. -/
theorem C1_ProcessCoin_contract (m : Machine) (now : Nat)
    (hnow : now + 1800 ≤ 2 ^ 32 - 1)
    (hexp : m.parking_state.timp_rezervare + 1800 ≤ 2 ^ 32 - 1) :
    (ProcessCoin now m).parking_state.timp_rezervare
        = max m.parking_state.timp_rezervare now + 1800 ∧
    (ProcessCoin now m).parking_state.loc_rezervat = true ∧
    (ProcessCoin now m).parking_state.monede_primite
        = (m.parking_state.monede_primite + 1) % 2 ^ 32 ∧
    (ProcessCoin now m).parking_state.loc_ocupat = m.parking_state.loc_ocupat ∧
    (ProcessCoin now m).parking_state.timp_ocupare
        = m.parking_state.timp_ocupare := by
  simp only [ProcessCoin, UART_SendMessage, UINT32_MOD, T2_MINUTES]
  refine ⟨?_, ?_, ?_, ?_, ?_⟩
  · split
    · rename_i h
      simp only []
      rw [Nat.mod_eq_of_lt (by omega)]
      have : max m.parking_state.timp_rezervare now = now := by
        apply max_eq_right; exact Nat.le_of_lt h
      omega
    · rename_i h
      simp only []
      rw [Nat.mod_eq_of_lt (by omega)]
      have : max m.parking_state.timp_rezervare now
          = m.parking_state.timp_rezervare := by
        apply max_eq_left; exact Nat.le_of_not_lt h
      omega
  · split <;> rfl
  · split <;> rfl
  · split <;> rfl
  · split <;> rfl

/-- C1, witness of the claim: from the zero-initialised state a payment at
`now = 0` gives expiry `1800` and a second payment at `now = 100` gives expiry
`3600`, not `1900`. -/
theorem C1_ProcessCoin_contract_witness :
    (ProcessCoin 0 Machine.init).parking_state.timp_rezervare = 1800 ∧
    (ProcessCoin 100 (ProcessCoin 0 Machine.init)).parking_state.timp_rezervare
      = 3600 ∧
    (ProcessCoin 100 (ProcessCoin 0 Machine.init)).parking_state.timp_rezervare
      ≠ 1900 := by
  have h0 := (C1_ProcessCoin_contract Machine.init 0 (by decide) (by decide)).1
  have h0v : (ProcessCoin 0 Machine.init).parking_state.timp_rezervare = 1800 := by
    rw [h0]; decide
  have h1 := (C1_ProcessCoin_contract (ProcessCoin 0 Machine.init) 100 (by decide)
    (by rw [h0v]; decide)).1
  have h1v : (ProcessCoin 100 (ProcessCoin 0 Machine.init)).parking_state.timp_rezervare
      = 3600 := by
    rw [h1, h0v]; decide
  exact ⟨h0v, h1v, by rw [h1v]; decide⟩

/-- C2: `CheckControllerAlert` (check_controller_alert). When
`reservation_expiry + 600` does not exceed `2^32 - 1`, the alert signal is
driven on iff `occupied` and not `reserved` and
`now > reservation_expiry + 600`, and is driven off otherwise; the slot state
is left unchanged; and two machines that agree on `occupied`, `reserved` and
`reservation_expiry` get the same signal at the same `now`, whatever their
`coins_received`, `occupied_since` and previous signal are. -/
theorem C2_CheckControllerAlert_contract (m : Machine) (now : Nat)
    (hexp : m.parking_state.timp_rezervare + 600 ≤ 2 ^ 32 - 1) :
    ((CheckControllerAlert now m).led = true ↔
      (m.parking_state.loc_ocupat = true ∧ m.parking_state.loc_rezervat = false ∧
        now > m.parking_state.timp_rezervare + 600)) ∧
    ((CheckControllerAlert now m).led = false ↔
      ¬ (m.parking_state.loc_ocupat = true ∧ m.parking_state.loc_rezervat = false ∧
        now > m.parking_state.timp_rezervare + 600)) ∧
    (CheckControllerAlert now m).parking_state = m.parking_state ∧
    (∀ m2 : Machine,
      m2.parking_state.loc_ocupat = m.parking_state.loc_ocupat →
      m2.parking_state.loc_rezervat = m.parking_state.loc_rezervat →
      m2.parking_state.timp_rezervare = m.parking_state.timp_rezervare →
      (CheckControllerAlert now m2).led = (CheckControllerAlert now m).led) := by
  have hmod : (m.parking_state.timp_rezervare + T1_MINUTES * 60) % UINT32_MOD
      = m.parking_state.timp_rezervare + 600 := by
    simp only [T1_MINUTES, UINT32_MOD]
    rw [Nat.mod_eq_of_lt (by omega)]
  have hon : (CheckControllerAlert now m).led = true ↔
      (m.parking_state.loc_ocupat = true ∧ m.parking_state.loc_rezervat = false ∧
        now > m.parking_state.timp_rezervare + 600) := by
    unfold CheckControllerAlert
    rw [hmod]
    split
    · rename_i h
      simp only [Bool.and_eq_true, Bool.not_eq_true', decide_eq_true_eq] at h
      simp only [UART_SendMessage, LED_SetState, true_iff]
      exact ⟨h.1.1, h.1.2, h.2⟩
    · rename_i h
      simp only [Bool.and_eq_true, Bool.not_eq_true', decide_eq_true_eq] at h
      simp only [LED_SetState, Bool.false_eq_true, false_iff]
      intro hc
      exact h ⟨⟨hc.1, hc.2.1⟩, hc.2.2⟩
  refine ⟨hon, ?_, CheckControllerAlert_parking_state now m, ?_⟩
  · rw [← hon]
    cases (CheckControllerAlert now m).led <;> simp
  · intro m2 h1 h2 h3
    unfold CheckControllerAlert
    rw [h1, h2, h3]
    split <;> rfl

/-- C2, witness: a slot occupied without reservation, with expiry `0`, at
`now = 601`. -/
theorem C2_CheckControllerAlert_contract_witness :
    neverPaid.parking_state.timp_rezervare + 600 ≤ 2 ^ 32 - 1 ∧
    (CheckControllerAlert 601 neverPaid).led = true ∧
    (CheckControllerAlert 601 neverPaid).parking_state = neverPaid.parking_state :=
  have h := C2_CheckControllerAlert_contract neverPaid 601 (by decide)
  ⟨by decide, h.1.mpr (by decide), h.2.2.1⟩

/-- C3, as stated, fails: in the never-paid scenario (occupancy detected at
`t = 0` on the zero-initialised state, so `occupied = true`,
`occupied_since = 0`, `reservation_expiry = 0`, `reserved = false`) the alert
is on at `now = 2401` but it is not off at `now = 2399`. -/
theorem C3_never_paid_counterexample :
    neverPaid.parking_state =
      { loc_ocupat := true, loc_rezervat := false, timp_rezervare := 0,
        timp_ocupare := 0, monede_primite := 0 } ∧
    ¬ ((CheckControllerAlert 2401 neverPaid).led = true ∧
       (CheckControllerAlert 2399 neverPaid).led = false) := by
  decide

/-- C3, amended: in the never-paid scenario the alert is on exactly when
`now > 600` (ten minutes of grace past expiry `0`): it is on at `now = 2401`
and at `now = 2399`, off at `now = 600` and on at `now = 601`. -/
theorem C3_never_paid_amended :
    neverPaid.parking_state =
      { loc_ocupat := true, loc_rezervat := false, timp_rezervare := 0,
        timp_ocupare := 0, monede_primite := 0 } ∧
    (∀ now : Nat, (CheckControllerAlert now neverPaid).led = true ↔ 600 < now) ∧
    (CheckControllerAlert 2401 neverPaid).led = true ∧
    (CheckControllerAlert 2399 neverPaid).led = true ∧
    (CheckControllerAlert 600 neverPaid).led = false ∧
    (CheckControllerAlert 601 neverPaid).led = true := by
  refine ⟨by decide, ?_, by decide, by decide, by decide, by decide⟩
  intro now
  have hps : neverPaid.parking_state =
      { loc_ocupat := true, loc_rezervat := false, timp_rezervare := 0,
        timp_ocupare := 0, monede_primite := 0 } := by decide
  unfold CheckControllerAlert
  rw [hps]
  simp only [T1_MINUTES, UINT32_MOD]
  by_cases h : 600 < now
  · simp [h, UART_SendMessage, LED_SetState]
  · simp [h, LED_SetState]

/-- C4: `UpdateReservationStatus` (update_reservation_status). The resulting
`reserved` flag is false iff `reserved` was false or `now > reservation_expiry`
(strict); the line `Rezervare expirata!` is sent iff `reserved` was true and
`now > reservation_expiry`, and nothing is sent otherwise;
`reservation_expiry`, `occupied`, `occupied_since` and `coins_received` are
unchanged. With `reserved = true` and expiry `1800`, `reserved` stays true at
`now = 1800` and becomes false at `now = 1801`. -/
theorem C4_UpdateReservationStatus_contract :
    (∀ (m : Machine) (now : Nat),
      ((UpdateReservationStatus now m).parking_state.loc_rezervat = false ↔
        (m.parking_state.loc_rezervat = false ∨
          now > m.parking_state.timp_rezervare)) ∧
      (UpdateReservationStatus now m).uart_tx =
        (if m.parking_state.loc_rezervat = true ∧
            now > m.parking_state.timp_rezervare then
          m.uart_tx ++ ["[" ++ PrintTimestamp now ++ "] Rezervare expirata!\r\n"]
        else m.uart_tx) ∧
      (UpdateReservationStatus now m).parking_state.timp_rezervare
        = m.parking_state.timp_rezervare ∧
      (UpdateReservationStatus now m).parking_state.loc_ocupat
        = m.parking_state.loc_ocupat ∧
      (UpdateReservationStatus now m).parking_state.timp_ocupare
        = m.parking_state.timp_ocupare ∧
      (UpdateReservationStatus now m).parking_state.monede_primite
        = m.parking_state.monede_primite) ∧
    (UpdateReservationStatus 1800 reservedUntil1800).parking_state.loc_rezervat
      = true ∧
    (UpdateReservationStatus 1800 reservedUntil1800).uart_tx = [] ∧
    (UpdateReservationStatus 1801 reservedUntil1800).parking_state.loc_rezervat
      = false ∧
    (UpdateReservationStatus 1801 reservedUntil1800).uart_tx
      = ["[00:30:01] Rezervare expirata!\r\n"] := by
  refine ⟨?_, by decide, by decide, by decide, by decide⟩
  intro m now
  unfold UpdateReservationStatus
  by_cases hr : m.parking_state.loc_rezervat = true
  · by_cases ht : now > m.parking_state.timp_rezervare
    · simp [hr, ht, UART_SendMessage]
    · simp [hr, ht]
  · simp [hr]

/-! ### Field-by-field descriptions used by the claims below -/

theorem ProcessCoin_timp_rezervare (now : Nat) (m : Machine) :
    (ProcessCoin now m).parking_state.timp_rezervare =
      if m.parking_state.timp_rezervare < now then (now + 1800) % 2 ^ 32
      else (m.parking_state.timp_rezervare + 1800) % 2 ^ 32 := by
  simp only [ProcessCoin, UART_SendMessage, UINT32_MOD, T2_MINUTES]
  split <;> rfl

theorem ProcessCoin_loc_rezervat (now : Nat) (m : Machine) :
    (ProcessCoin now m).parking_state.loc_rezervat = true := by
  simp only [ProcessCoin, UART_SendMessage]
  split <;> rfl

theorem ProcessCoin_monede_primite (now : Nat) (m : Machine) :
    (ProcessCoin now m).parking_state.monede_primite
      = (m.parking_state.monede_primite + 1) % 2 ^ 32 := by
  simp only [ProcessCoin, UART_SendMessage, UINT32_MOD]
  split <;> rfl

theorem ProcessCoin_loc_ocupat (now : Nat) (m : Machine) :
    (ProcessCoin now m).parking_state.loc_ocupat = m.parking_state.loc_ocupat := by
  simp only [ProcessCoin, UART_SendMessage]
  split <;> rfl

theorem ProcessCoin_timp_ocupare (now : Nat) (m : Machine) :
    (ProcessCoin now m).parking_state.timp_ocupare
      = m.parking_state.timp_ocupare := by
  simp only [ProcessCoin, UART_SendMessage]
  split <;> rfl

theorem ProcessCoin_expiry_le (now : Nat) (m : Machine)
    (h : max m.parking_state.timp_rezervare now + 1800 ≤ 2 ^ 32 - 1) :
    m.parking_state.timp_rezervare
      ≤ (ProcessCoin now m).parking_state.timp_rezervare := by
  rw [ProcessCoin_timp_rezervare]
  have h1 := le_max_left m.parking_state.timp_rezervare now
  have h2 := le_max_right m.parking_state.timp_rezervare now
  split
  · rw [Nat.mod_eq_of_lt (by omega)]; omega
  · rw [Nat.mod_eq_of_lt (by omega)]; omega

theorem payments_take_succ (m : Machine) (nows : List Nat) (k : Nat)
    (hk : k < nows.length) :
    payments m (nows.take (k + 1)) = ProcessCoin nows[k] (payments m (nows.take k)) := by
  unfold payments
  rw [List.take_succ, List.foldl_append, List.getElem?_eq_getElem hk]
  rfl

theorem payments_replicate_succ (m : Machine) (n now : Nat) :
    payments m (List.replicate (n + 1) now)
      = ProcessCoin now (payments m (List.replicate n now)) := by
  unfold payments
  rw [List.replicate_succ', List.foldl_append]
  rfl

theorem payments_replicate_zero (n : Nat) (h : 1800 * n ≤ 2 ^ 32 - 1) :
    (payments Machine.init (List.replicate n 0)).parking_state.timp_rezervare
      = 1800 * n ∧
    (payments Machine.init (List.replicate n 0)).parking_state.monede_primite = n ∧
    (payments Machine.init (List.replicate n 0)).parking_state.loc_ocupat = false ∧
    (payments Machine.init (List.replicate n 0)).parking_state.timp_ocupare = 0 := by
  induction n with
  | zero => decide
  | succ n ih =>
    obtain ⟨h1, h2, h3, h4⟩ := ih (by omega)
    rw [payments_replicate_succ]
    refine ⟨?_, ?_, ?_, ?_⟩
    · rw [ProcessCoin_timp_rezervare, h1, if_neg (by omega),
        Nat.mod_eq_of_lt (by omega)]
      omega
    · rw [ProcessCoin_monede_primite, h2, Nat.mod_eq_of_lt (by omega)]
    · rw [ProcessCoin_loc_ocupat, h3]
    · rw [ProcessCoin_timp_ocupare, h4]

/-- C5, as stated, fails: the slot state reached from the zero-initialised
state by `2386092` payments at `now = 0` has expiry `4294965600`, and one more
payment at `now = 0` wraps the 32-bit sum around to `104`, which is earlier. -/
theorem C5_expiry_counterexample :
    (payments Machine.init (List.replicate 2386092 0)).parking_state
      = stackedPayments.parking_state ∧
    stackedPayments.parking_state.timp_rezervare = 4294965600 ∧
    (ProcessCoin 0 stackedPayments).parking_state.timp_rezervare = 104 ∧
    ¬ ((ProcessCoin 0 stackedPayments).parking_state.timp_rezervare
        ≥ stackedPayments.parking_state.timp_rezervare) := by
  refine ⟨?_, by decide, by decide, by decide⟩
  obtain ⟨h1, h2, h3, h4⟩ := payments_replicate_zero 2386092 (by decide)
  have h5 : (payments Machine.init (List.replicate 2386092 0)).parking_state.loc_rezervat
      = true := by
    rw [show (2386092 : Nat) = 2386091 + 1 from rfl, payments_replicate_succ]
    exact ProcessCoin_loc_rezervat _ _
  generalize (payments Machine.init (List.replicate 2386092 0)).parking_state = ps at *
  cases ps
  simp only at h1 h2 h3 h4 h5
  subst h1 h2 h3 h4 h5
  decide

/-- C5, amended: a payment at `now` on a state with
`max(reservation_expiry, now) + 1800 ≤ 2^32 - 1` does not move
`reservation_expiry` backward; and over every sequence of payment events in
which each payment meets that bound, `reservation_expiry` is non-decreasing. -/
theorem C5_expiry_monotone_amended :
    (∀ (m : Machine) (now : Nat),
      max m.parking_state.timp_rezervare now + 1800 ≤ 2 ^ 32 - 1 →
      (ProcessCoin now m).parking_state.timp_rezervare
        ≥ m.parking_state.timp_rezervare) ∧
    (∀ (m : Machine) (nows : List Nat),
      (∀ (k : Nat) (hk : k < nows.length),
        max (payments m (nows.take k)).parking_state.timp_rezervare nows[k] + 1800
          ≤ 2 ^ 32 - 1) →
      ∀ i j : Nat, i ≤ j → j ≤ nows.length →
        (payments m (nows.take i)).parking_state.timp_rezervare
          ≤ (payments m (nows.take j)).parking_state.timp_rezervare) := by
  refine ⟨fun m now h => ProcessCoin_expiry_le now m h, ?_⟩
  intro m nows hov i j hij
  induction j, hij using Nat.le_induction with
  | base => intro _; exact le_rfl
  | succ j _ ih =>
    intro hj
    have hlt : j < nows.length := hj
    refine le_trans (ih (Nat.le_of_lt hlt)) ?_
    rw [payments_take_succ m nows j hlt]
    exact ProcessCoin_expiry_le _ _ (hov j hlt)

/-- C5, witness: two payments, at `0` and at `100`, from the zero-initialised
state. -/
theorem C5_expiry_monotone_amended_witness :
    max Machine.init.parking_state.timp_rezervare 0 + 1800 ≤ 2 ^ 32 - 1 ∧
    (ProcessCoin 0 Machine.init).parking_state.timp_rezervare
      ≥ Machine.init.parking_state.timp_rezervare ∧
    (payments Machine.init ([0, 100].take 1)).parking_state.timp_rezervare
      ≤ (payments Machine.init ([0, 100].take 2)).parking_state.timp_rezervare :=
  ⟨by decide,
   C5_expiry_monotone_amended.1 Machine.init 0 (by decide),
   C5_expiry_monotone_amended.2 Machine.init [0, 100]
     (by
       intro k hk
       have hk2 : k < 2 := hk
       interval_cases k
       · simp only [List.getElem_cons_zero]; decide
       · simp only [List.getElem_cons_succ, List.getElem_cons_zero]; decide)
     1 2 (by decide) (by decide)⟩

/-- C6: no operation other than `UpdateReservationStatus` clears `reserved`.
On a state with `reserved = true`, `ProcessCoin`, `ProcessParkingOccupied`,
`ProcessParkingFree`, `CheckControllerAlert` and `ProcessUARTCommand` (for the
query byte `?` as for every other received byte or none) each yield a state
whose `reserved` flag is still true. -/
theorem C6_reserved_only_cleared_by_update (m : Machine)
    (hres : m.parking_state.loc_rezervat = true) :
    (∀ now : Nat, (ProcessCoin now m).parking_state.loc_rezervat = true) ∧
    (∀ now : Nat, (ProcessParkingOccupied now m).parking_state.loc_rezervat = true) ∧
    (∀ now : Nat, (ProcessParkingFree now m).parking_state.loc_rezervat = true) ∧
    (∀ now : Nat, (CheckControllerAlert now m).parking_state.loc_rezervat = true) ∧
    (∀ now : Nat,
      (ProcessUARTCommand (some '?'.toNat) now m).parking_state.loc_rezervat = true) ∧
    (∀ (received : Option Nat) (now : Nat),
      (ProcessUARTCommand received now m).parking_state.loc_rezervat = true) := by
  refine ⟨fun now => ProcessCoin_loc_rezervat now m, ?_, ?_, ?_, ?_, ?_⟩
  · intro now
    unfold ProcessParkingOccupied
    split
    · exact hres
    · exact hres
  · intro now
    unfold ProcessParkingFree
    split
    · exact hres
    · exact hres
  · intro now
    rw [CheckControllerAlert_parking_state]; exact hres
  · intro now
    rw [ProcessUARTCommand_parking_state]; exact hres
  · intro received now
    rw [ProcessUARTCommand_parking_state]; exact hres

/-- C6, witness: the occupied slot reserved until `1800`. -/
theorem C6_reserved_only_cleared_by_update_witness :
    reservedUntil1800.parking_state.loc_rezervat = true ∧
    (ProcessCoin 5 reservedUntil1800).parking_state.loc_rezervat = true ∧
    (ProcessParkingFree 5 reservedUntil1800).parking_state.loc_rezervat = true ∧
    (ProcessUARTCommand (some '?'.toNat) 5 reservedUntil1800).parking_state.loc_rezervat
      = true :=
  have h := C6_reserved_only_cleared_by_update reservedUntil1800 (by decide)
  ⟨by decide, h.1 5, h.2.2.1 5, h.2.2.2.2.1 5⟩

theorem ProcessOccupancy_loc_rezervat (p : Bool) (now : Nat) (m : Machine) :
    (ProcessOccupancy p now m).parking_state.loc_rezervat
      = m.parking_state.loc_rezervat := by
  unfold ProcessOccupancy ProcessParkingOccupied ProcessParkingFree
  cases p <;> simp only [Bool.false_eq_true, if_false, if_true] <;> split <;> rfl

theorem ProcessOccupancy_timp_rezervare (p : Bool) (now : Nat) (m : Machine) :
    (ProcessOccupancy p now m).parking_state.timp_rezervare
      = m.parking_state.timp_rezervare := by
  unfold ProcessOccupancy ProcessParkingOccupied ProcessParkingFree
  cases p <;> simp only [Bool.false_eq_true, if_false, if_true] <;> split <;> rfl

theorem ProcessOccupancy_monede_primite (p : Bool) (now : Nat) (m : Machine) :
    (ProcessOccupancy p now m).parking_state.monede_primite
      = m.parking_state.monede_primite := by
  unfold ProcessOccupancy ProcessParkingOccupied ProcessParkingFree
  cases p <;> simp only [Bool.false_eq_true, if_false, if_true] <;> split <;> rfl

theorem ProcessOccupancy_loc_ocupat (p : Bool) (now : Nat) (m : Machine) :
    (ProcessOccupancy p now m).parking_state.loc_ocupat = p := by
  unfold ProcessOccupancy ProcessParkingOccupied ProcessParkingFree
  cases p <;> cases h : m.parking_state.loc_ocupat <;> simp [h, UART_SendMessage]

theorem UpdateReservationStatus_loc_rezervat (now : Nat) (m : Machine) :
    (UpdateReservationStatus now m).parking_state.loc_rezervat
      = (m.parking_state.loc_rezervat &&
          !decide (now > m.parking_state.timp_rezervare)) := by
  unfold UpdateReservationStatus
  cases hr : m.parking_state.loc_rezervat
  · simp [hr]
  · by_cases ht : now > m.parking_state.timp_rezervare
    · simp [ht, UART_SendMessage]
    · simp [ht, hr]

theorem UpdateReservationStatus_timp_rezervare (now : Nat) (m : Machine) :
    (UpdateReservationStatus now m).parking_state.timp_rezervare
      = m.parking_state.timp_rezervare := by
  unfold UpdateReservationStatus
  split <;> rfl

theorem UpdateReservationStatus_monede_primite (now : Nat) (m : Machine) :
    (UpdateReservationStatus now m).parking_state.monede_primite
      = m.parking_state.monede_primite := by
  unfold UpdateReservationStatus
  split <;> rfl

theorem UpdateReservationStatus_loc_ocupat (now : Nat) (m : Machine) :
    (UpdateReservationStatus now m).parking_state.loc_ocupat
      = m.parking_state.loc_ocupat := by
  unfold UpdateReservationStatus
  split <;> rfl

theorem UpdateReservationStatus_timp_ocupare (now : Nat) (m : Machine) :
    (UpdateReservationStatus now m).parking_state.timp_ocupare
      = m.parking_state.timp_ocupare := by
  unfold UpdateReservationStatus
  split <;> rfl

/-- The slot state at the end of a tick is the one `UpdateReservationStatus`
leaves: the alert check and the command handler do not write it. -/
theorem tick_parking_state (m : Machine) (e : TickEvents) :
    (tick m e).parking_state =
      (UpdateReservationStatus e.now (ProcessOccupancy e.pir_activ e.now
        (if e.moneda_primita then ProcessCoin e.now m else m))).parking_state := by
  simp only [tick, main_loop_process, ClockReads.const,
    ProcessUARTCommand_parking_state, CheckControllerAlert_parking_state]

theorem run_take_succ (m : Machine) (es : List TickEvents) (k : Nat)
    (hk : k < es.length) :
    run m (es.take (k + 1)) = tick (run m (es.take k)) es[k] := by
  unfold run
  rw [List.take_succ, List.foldl_append, List.getElem?_eq_getElem hk]
  rfl

/-- One tick keeps the characterisation of `reserved`: if it holds for the
state before the tick at an earlier time `t`, it holds at the end of the tick
at the time of the tick. -/
theorem tick_reserved_iff (m : Machine) (e : TickEvents) (t : Nat)
    (hinv : m.parking_state.loc_rezervat = true ↔
      (m.parking_state.monede_primite ≥ 1 ∧ t ≤ m.parking_state.timp_rezervare))
    (ht : t ≤ e.now)
    (hov : e.moneda_primita = true →
      e.now + 1800 ≤ 2 ^ 32 - 1 ∧
      m.parking_state.timp_rezervare + 1800 ≤ 2 ^ 32 - 1 ∧
      m.parking_state.monede_primite + 1 ≤ 2 ^ 32 - 1) :
    (tick m e).parking_state.loc_rezervat = true ↔
      ((tick m e).parking_state.monede_primite ≥ 1 ∧
        e.now ≤ (tick m e).parking_state.timp_rezervare) := by
  rw [tick_parking_state, UpdateReservationStatus_loc_rezervat,
    UpdateReservationStatus_monede_primite, UpdateReservationStatus_timp_rezervare,
    ProcessOccupancy_loc_rezervat, ProcessOccupancy_monede_primite,
    ProcessOccupancy_timp_rezervare]
  cases hc : e.moneda_primita
  · simp only [Bool.false_eq_true, if_false, Bool.and_eq_true, Bool.not_eq_true',
      decide_eq_false_iff_not, not_lt, gt_iff_lt]
    constructor
    · rintro ⟨h1, h2⟩
      exact ⟨(hinv.mp h1).1, h2⟩
    · rintro ⟨h1, h2⟩
      exact ⟨hinv.mpr ⟨h1, le_trans ht h2⟩, h2⟩
  · obtain ⟨h1, h2, h3⟩ := hov hc
    simp only [if_true, ProcessCoin_loc_rezervat, ProcessCoin_monede_primite,
      ProcessCoin_timp_rezervare, Bool.true_and, Bool.not_eq_true',
      decide_eq_false_iff_not, not_lt, gt_iff_lt]
    have hcoins : (m.parking_state.monede_primite + 1) % 2 ^ 32
        = m.parking_state.monede_primite + 1 := Nat.mod_eq_of_lt (by omega)
    have hexp : e.now ≤ (if m.parking_state.timp_rezervare < e.now
        then (e.now + 1800) % 2 ^ 32
        else (m.parking_state.timp_rezervare + 1800) % 2 ^ 32) := by
      split
      · rw [Nat.mod_eq_of_lt (by omega)]; omega
      · rw [Nat.mod_eq_of_lt (by omega)]; omega
    rw [hcoins]
    constructor
    · intro _
      exact ⟨Nat.le_add_left 1 _, hexp⟩
    · intro _
      exact hexp

/-- C7: `reserved` at cycle boundaries. For every run of ticks from the
zero-initialised state (each tick: optional `ProcessCoin`, occupancy handling,
`UpdateReservationStatus`, `CheckControllerAlert`, command handling, all at
the timestamp of the tick) with timestamps non-decreasing from tick to tick
and no 32-bit overflow of `now + 1800`, `reservation_expiry + 1800` or
`coins_received + 1` at the ticks where a payment fires, the state at the end
of every tick has `reserved = true` iff `coins_received ≥ 1` and
`now ≤ reservation_expiry`. -/
theorem C7_reserved_at_cycle_boundaries (es : List TickEvents)
    (hmono : ∀ (k : Nat) (hk : k + 1 < es.length), es[k].now ≤ es[k + 1].now)
    (hov : ∀ (k : Nat) (hk : k < es.length), es[k].moneda_primita = true →
      es[k].now + 1800 ≤ 2 ^ 32 - 1 ∧
      (run Machine.init (es.take k)).parking_state.timp_rezervare + 1800
        ≤ 2 ^ 32 - 1 ∧
      (run Machine.init (es.take k)).parking_state.monede_primite + 1
        ≤ 2 ^ 32 - 1) :
    ∀ (k : Nat) (hk : k < es.length),
      (run Machine.init (es.take (k + 1))).parking_state.loc_rezervat = true ↔
        ((run Machine.init (es.take (k + 1))).parking_state.monede_primite ≥ 1 ∧
          es[k].now ≤
            (run Machine.init (es.take (k + 1))).parking_state.timp_rezervare) := by
  intro k
  induction k with
  | zero =>
    intro hk
    rw [run_take_succ Machine.init es 0 hk]
    apply tick_reserved_iff _ _ es[0].now
    · have h0 : run Machine.init (es.take 0) = Machine.init := rfl
      rw [h0]
      simp [Machine.init, parking_state_init]
    · exact le_rfl
    · exact hov 0 hk
  | succ k ih =>
    intro hk
    rw [run_take_succ Machine.init es (k + 1) hk]
    exact tick_reserved_iff _ _ es[k].now (ih (by omega)) (hmono k hk)
      (hov (k + 1) hk)

theorem ProcessUARTCommand_led (received : Option Nat) (now : Nat) (m : Machine) :
    (ProcessUARTCommand received now m).led = m.led := by
  unfold ProcessUARTCommand
  cases received with
  | none => rfl
  | some c =>
    simp only []
    split <;> rfl

/-- C7, witness: a payment at `now = 0`, then a tick at `now = 1801`. At the
end of the first tick `reserved` is true (one coin, `0 ≤ 1800`), at the end of
the second it is false (`1801 > 1800`). -/
theorem C7_reserved_at_cycle_boundaries_witness :
    ((run Machine.init (paidThenExpired.take 1)).parking_state.loc_rezervat = true ↔
      ((run Machine.init (paidThenExpired.take 1)).parking_state.monede_primite ≥ 1 ∧
        0 ≤ (run Machine.init (paidThenExpired.take 1)).parking_state.timp_rezervare)) ∧
    ((run Machine.init (paidThenExpired.take 2)).parking_state.loc_rezervat = true ↔
      ((run Machine.init (paidThenExpired.take 2)).parking_state.monede_primite ≥ 1 ∧
        1801 ≤ (run Machine.init (paidThenExpired.take 2)).parking_state.timp_rezervare)) ∧
    (run Machine.init (paidThenExpired.take 1)).parking_state.loc_rezervat = true ∧
    (run Machine.init (paidThenExpired.take 2)).parking_state.loc_rezervat = false := by
  have hmono : ∀ (k : Nat) (hk : k + 1 < paidThenExpired.length),
      paidThenExpired[k].now ≤ paidThenExpired[k + 1].now := by
    intro k hk
    have hk2 : k + 1 < 2 := hk
    have hk0 : k = 0 := by omega
    subst hk0
    show (0 : Nat) ≤ 1801
    decide
  have hov : ∀ (k : Nat) (hk : k < paidThenExpired.length),
      paidThenExpired[k].moneda_primita = true →
      paidThenExpired[k].now + 1800 ≤ 2 ^ 32 - 1 ∧
      (run Machine.init (paidThenExpired.take k)).parking_state.timp_rezervare + 1800
        ≤ 2 ^ 32 - 1 ∧
      (run Machine.init (paidThenExpired.take k)).parking_state.monede_primite + 1
        ≤ 2 ^ 32 - 1 := by
    intro k hk
    have hk2 : k < 2 := hk
    interval_cases k
    · intro _
      show (0 + 1800 ≤ 2 ^ 32 - 1) ∧ (0 + 1800 ≤ 2 ^ 32 - 1) ∧ (0 + 1 ≤ 2 ^ 32 - 1)
      decide
    · intro h
      have hf : false = true := h
      exact absurd hf (by decide)
  exact ⟨C7_reserved_at_cycle_boundaries paidThenExpired hmono hov 0 (by decide),
    C7_reserved_at_cycle_boundaries paidThenExpired hmono hov 1 (by decide),
    by decide, by decide⟩

/-- C8: same-tick effect of a payment. When `now + 1800` and
`reservation_expiry + 1800` do not exceed `2^32 - 1`, a tick in which the
payment fires (`ProcessCoin`, then occupancy handling, then
`UpdateReservationStatus`, then `CheckControllerAlert`, then command
handling, all at the same `now`) ends with `reserved = true` and the alert
signal off, for every sensor level, received byte and previous state. -/
theorem C8_payment_same_tick (m : Machine) (pir_activ : Bool) (now : Nat)
    (received : Option Nat)
    (hnow : now + 1800 ≤ 2 ^ 32 - 1)
    (hexp : m.parking_state.timp_rezervare + 1800 ≤ 2 ^ 32 - 1) :
    (main_loop_process pir_activ true (ClockReads.const now) received
      m).parking_state.loc_rezervat = true ∧
    (main_loop_process pir_activ true (ClockReads.const now) received m).led
      = false := by
  have hres : (UpdateReservationStatus now
      (ProcessOccupancy pir_activ now (ProcessCoin now m))).parking_state.loc_rezervat
        = true := by
    rw [UpdateReservationStatus_loc_rezervat, ProcessOccupancy_loc_rezervat,
      ProcessOccupancy_timp_rezervare, ProcessCoin_loc_rezervat,
      ProcessCoin_timp_rezervare]
    have hle : ¬ (now > (if m.parking_state.timp_rezervare < now
        then (now + 1800) % 2 ^ 32
        else (m.parking_state.timp_rezervare + 1800) % 2 ^ 32)) := by
      split
      · rw [Nat.mod_eq_of_lt (by omega)]; omega
      · rw [Nat.mod_eq_of_lt (by omega)]; omega
    simp only [Bool.true_and, Bool.not_eq_true', decide_eq_false_iff_not]
    exact hle
  constructor
  · simp only [main_loop_process, ClockReads.const, if_true,
      ProcessUARTCommand_parking_state, CheckControllerAlert_parking_state]
    exact hres
  · simp only [main_loop_process, ClockReads.const, if_true]
    rw [ProcessUARTCommand_led]
    unfold CheckControllerAlert
    rw [hres]
    simp only [Bool.not_true, Bool.and_false, Bool.false_and, Bool.false_eq_true,
      if_false, LED_SetState]

/-- C8, witness: a payment at `now = 5000` on the never-paid occupied slot,
whose alert would otherwise be on. -/
theorem C8_payment_same_tick_witness :
    (5000 + 1800 ≤ 2 ^ 32 - 1 ∧
      neverPaid.parking_state.timp_rezervare + 1800 ≤ 2 ^ 32 - 1) ∧
    (main_loop_process true false (ClockReads.const 5000) none neverPaid).led = true ∧
    (main_loop_process true true (ClockReads.const 5000) none
      neverPaid).parking_state.loc_rezervat = true ∧
    (main_loop_process true true (ClockReads.const 5000) none neverPaid).led = false :=
  ⟨by decide, by decide,
   C8_payment_same_tick neverPaid true 5000 none (by decide) (by decide)⟩

theorem ProcessOccupancy_timp_ocupare (p : Bool) (now : Nat) (m : Machine) :
    (ProcessOccupancy p now m).parking_state.timp_ocupare =
      if m.parking_state.loc_ocupat = false ∧ p = true then now
      else m.parking_state.timp_ocupare := by
  unfold ProcessOccupancy ProcessParkingOccupied ProcessParkingFree
  cases p <;> cases h : m.parking_state.loc_ocupat <;> simp [h, UART_SendMessage]

/-- Occupancy handling with the level the state already records does
nothing at all. -/
theorem ProcessOccupancy_same_level (p : Bool) (now : Nat) (m : Machine)
    (h : m.parking_state.loc_ocupat = p) : ProcessOccupancy p now m = m := by
  unfold ProcessOccupancy ProcessParkingOccupied ProcessParkingFree
  cases p <;> simp [h]

/-- C9: idempotence of occupancy handling (`ProcessParkingOccupied` when the
sensor level is present, `ProcessParkingFree` when absent). Applying it with
level `p` at `t1` and again with level `p` at `t2` gives the same machine
(slot state, LED, sent messages) as applying it once at `t1`; in particular
the second application sends no report line. -/
theorem C9_occupancy_idempotent (m : Machine) (p : Bool) (t1 t2 : Nat) :
    ProcessOccupancy p t2 (ProcessOccupancy p t1 m) = ProcessOccupancy p t1 m ∧
    (ProcessOccupancy p t2 (ProcessOccupancy p t1 m)).parking_state
      = (ProcessOccupancy p t1 m).parking_state ∧
    (ProcessOccupancy p t2 (ProcessOccupancy p t1 m)).uart_tx
      = (ProcessOccupancy p t1 m).uart_tx := by
  have h : ProcessOccupancy p t2 (ProcessOccupancy p t1 m) = ProcessOccupancy p t1 m :=
    ProcessOccupancy_same_level p t2 _ (ProcessOccupancy_loc_ocupat p t1 m)
  exact ⟨h, by rw [h], by rw [h]⟩

/-- C10: `occupied` follows only the sensor. After occupancy handling with
level `p` at `now`, `occupied = p`, `occupied_since = now` if `occupied` was
false and `p` is true and is unchanged otherwise, and `reserved`,
`reservation_expiry` and `coins_received` are unchanged; `ProcessCoin`,
`UpdateReservationStatus`, `CheckControllerAlert` and `ProcessUARTCommand`
leave `occupied` and `occupied_since` unchanged for every state and input. -/
theorem C10_occupied_follows_sensor (m : Machine) (p : Bool) (now : Nat)
    (received : Option Nat) :
    (ProcessOccupancy p now m).parking_state.loc_ocupat = p ∧
    (ProcessOccupancy p now m).parking_state.timp_ocupare =
      (if m.parking_state.loc_ocupat = false ∧ p = true then now
       else m.parking_state.timp_ocupare) ∧
    (ProcessOccupancy p now m).parking_state.loc_rezervat
      = m.parking_state.loc_rezervat ∧
    (ProcessOccupancy p now m).parking_state.timp_rezervare
      = m.parking_state.timp_rezervare ∧
    (ProcessOccupancy p now m).parking_state.monede_primite
      = m.parking_state.monede_primite ∧
    ((ProcessCoin now m).parking_state.loc_ocupat = m.parking_state.loc_ocupat ∧
      (ProcessCoin now m).parking_state.timp_ocupare
        = m.parking_state.timp_ocupare) ∧
    ((UpdateReservationStatus now m).parking_state.loc_ocupat
        = m.parking_state.loc_ocupat ∧
      (UpdateReservationStatus now m).parking_state.timp_ocupare
        = m.parking_state.timp_ocupare) ∧
    ((CheckControllerAlert now m).parking_state.loc_ocupat
        = m.parking_state.loc_ocupat ∧
      (CheckControllerAlert now m).parking_state.timp_ocupare
        = m.parking_state.timp_ocupare) ∧
    ((ProcessUARTCommand received now m).parking_state.loc_ocupat
        = m.parking_state.loc_ocupat ∧
      (ProcessUARTCommand received now m).parking_state.timp_ocupare
        = m.parking_state.timp_ocupare) := by
  refine ⟨ProcessOccupancy_loc_ocupat p now m, ProcessOccupancy_timp_ocupare p now m,
    ProcessOccupancy_loc_rezervat p now m, ProcessOccupancy_timp_rezervare p now m,
    ProcessOccupancy_monede_primite p now m,
    ⟨ProcessCoin_loc_ocupat now m, ProcessCoin_timp_ocupare now m⟩,
    ⟨UpdateReservationStatus_loc_ocupat now m,
      UpdateReservationStatus_timp_ocupare now m⟩, ?_, ?_⟩
  · rw [CheckControllerAlert_parking_state]
    exact ⟨rfl, rfl⟩
  · rw [ProcessUARTCommand_parking_state]
    exact ⟨rfl, rfl⟩

/-! ### Rendering of timestamps -/

/-- Below sixty, `%02lu` gives the tens digit followed by the units digit. -/
theorem fmt02lu_two_digits (n : Nat) (h : n < 60) :
    fmt02lu n = String.mk [Nat.digitChar (n / 10), Nat.digitChar (n % 10)] := by
  interval_cases n <;> rfl

theorem PrintTimestamp_chars (t : Nat) :
    PrintTimestamp t =
      String.mk
        [Nat.digitChar ((t / 3600) % 24 / 10), Nat.digitChar ((t / 3600) % 24 % 10),
         ':',
         Nat.digitChar ((t / 60) % 60 / 10), Nat.digitChar ((t / 60) % 60 % 10),
         ':',
         Nat.digitChar (t % 60 / 10), Nat.digitChar (t % 60 % 10)] := by
  unfold PrintTimestamp
  simp only []
  rw [fmt02lu_two_digits ((t / 3600) % 24) (by omega),
    fmt02lu_two_digits ((t / 60) % 60) (by omega),
    fmt02lu_two_digits (t % 60) (by omega)]
  rfl

theorem digitChar_utf8Size (d : Nat) (h : d < 10) :
    (Nat.digitChar d).utf8Size = 1 := by
  interval_cases d <;> rfl

/-- C11: query handling (`ProcessUARTCommand`). For every state, timestamp
and received byte (or none), the slot state is unchanged; exactly one message
is sent when the byte is `?` and none otherwise; for `?` it is the line
`[T] Status: REZERVAT pana la E` when `reserved` is true, with `T` the
rendering of `now` and `E` that of `reservation_expiry`, and
`[T] Status: LIBER` when `reserved` is false, each terminated by CR LF. -/
theorem C11_query_handling (m : Machine) (now : Nat) (received : Option Nat) :
    (ProcessUARTCommand received now m).parking_state = m.parking_state ∧
    (ProcessUARTCommand received now m).uart_tx =
      (if received = some '?'.toNat then
        m.uart_tx ++
          [if m.parking_state.loc_rezervat = true then
            "[" ++ PrintTimestamp now ++ "] Status: REZERVAT pana la " ++
              PrintTimestamp m.parking_state.timp_rezervare ++ "\r\n"
           else "[" ++ PrintTimestamp now ++ "] Status: LIBER\r\n"]
       else m.uart_tx) ∧
    (ProcessUARTCommand (some '?'.toNat) 3661 reservedUntil1800).uart_tx
      = ["[01:01:01] Status: REZERVAT pana la 00:30:00\r\n"] ∧
    (ProcessUARTCommand (some '?'.toNat) 3661 Machine.init).uart_tx
      = ["[01:01:01] Status: LIBER\r\n"] ∧
    (ProcessUARTCommand (some 'x'.toNat) 3661 reservedUntil1800).uart_tx = [] ∧
    (ProcessUARTCommand none 3661 reservedUntil1800).uart_tx = [] := by
  refine ⟨ProcessUARTCommand_parking_state received now m, ?_, by decide, by decide,
    by decide, by decide⟩
  unfold ProcessUARTCommand
  cases received with
  | none => simp
  | some c =>
    by_cases hc : c = '?'.toNat
    · subst hc
      simp only [if_true, UART_SendMessage]
    · have hne : ¬ (some c = some '?'.toNat) := fun h => hc (Option.some.inj h)
      simp only [if_neg hc, if_neg hne]

/-- C16: `PrintTimestamp`. For every timestamp `t` the text is exactly the
eight characters `HH:MM:SS` with `HH = (t / 3600) mod 24`,
`MM = (t / 60) mod 60`, `SS = t mod 60`, each as two decimal digits (tens
digit first, so with a leading zero below ten); `HH < 24`, `MM < 60`,
`SS < 60`; the eight bytes and the terminator fit a 20-byte buffer; and `t`
and `t + 86400` render identically. -/
theorem C16_PrintTimestamp (t : Nat) :
    PrintTimestamp t =
      String.mk
        [Nat.digitChar ((t / 3600) % 24 / 10), Nat.digitChar ((t / 3600) % 24 % 10),
         ':',
         Nat.digitChar ((t / 60) % 60 / 10), Nat.digitChar ((t / 60) % 60 % 10),
         ':',
         Nat.digitChar (t % 60 / 10), Nat.digitChar (t % 60 % 10)] ∧
    (PrintTimestamp t).length = 8 ∧
    ((t / 3600) % 24 < 24 ∧ (t / 60) % 60 < 60 ∧ t % 60 < 60) ∧
    (PrintTimestamp t).utf8ByteSize + 1 ≤ 20 ∧
    PrintTimestamp (t + 86400) = PrintTimestamp t ∧
    PrintTimestamp 0 = "00:00:00" ∧
    PrintTimestamp 86399 = "23:59:59" ∧
    PrintTimestamp 4294967295 = "06:28:15" := by
  refine ⟨PrintTimestamp_chars t, ?_, ⟨by omega, by omega, by omega⟩, ?_, ?_,
    by decide, by decide, by decide⟩
  · rw [PrintTimestamp_chars]
    rfl
  · rw [PrintTimestamp_chars]
    simp only [String.utf8ByteSize_mk, String.utf8Len_cons, String.utf8Len_nil]
    rw [digitChar_utf8Size _ (by omega), digitChar_utf8Size _ (by omega),
      digitChar_utf8Size _ (by omega), digitChar_utf8Size _ (by omega),
      digitChar_utf8Size _ (by omega), digitChar_utf8Size _ (by omega)]
    decide
  · rw [PrintTimestamp_chars, PrintTimestamp_chars]
    have h1 : (t + 86400) / 3600 % 24 = t / 3600 % 24 := by omega
    have h2 : (t + 86400) / 60 % 60 = t / 60 % 60 := by omega
    have h3 : (t + 86400) % 60 = t % 60 := by omega
    rw [h1, h2, h3]

/-! ### The debounced button -/

theorem Button_fires_iff (raw : Bool) (now_ms : Nat) (m : Machine) :
    (Button_ReadWithDebounce raw now_ms m).1 = true ↔
      (raw = true ∧ m.buton_apasat_anterior = false ∧
        (now_ms + 2 ^ 32 - m.last_button_time) % 2 ^ 32 > 50) := by
  unfold Button_ReadWithDebounce
  simp only [UINT32_MOD, DEBOUNCE_DELAY]
  split
  · rename_i h
    simp only [Bool.and_eq_true, Bool.not_eq_true', decide_eq_true_eq] at h
    simp only [true_iff]
    exact ⟨h.1.1, h.1.2, h.2⟩
  · rename_i h
    simp only [Bool.and_eq_true, Bool.not_eq_true', decide_eq_true_eq] at h
    simp only [Bool.false_eq_true, false_iff]
    intro hc
    exact h ⟨⟨hc.1, hc.2.1⟩, hc.2.2⟩

theorem Button_last_button_time (raw : Bool) (now_ms : Nat) (m : Machine) :
    (Button_ReadWithDebounce raw now_ms m).2.last_button_time =
      if (Button_ReadWithDebounce raw now_ms m).1 = true then now_ms
      else m.last_button_time := by
  unfold Button_ReadWithDebounce
  split <;> simp

theorem Button_buton_apasat_anterior (raw : Bool) (now_ms : Nat) (m : Machine) :
    (Button_ReadWithDebounce raw now_ms m).2.buton_apasat_anterior = raw := by
  unfold Button_ReadWithDebounce
  split <;> rfl

/-- C12: `Button_ReadWithDebounce`. For 32-bit `last_button_time` and tick
`now_ms`, the poll returns true iff the level read is active, the level
recorded before is inactive and `(now_ms - last_button_time) mod 2^32 > 50`;
`last_button_time` becomes `now_ms` when it returns true and is unchanged
otherwise; `buton_apasat_anterior` becomes the level read in every case. -/
theorem C12_Button_ReadWithDebounce_contract (m : Machine) (raw : Bool)
    (now_ms : Nat) (hlast : m.last_button_time < 2 ^ 32) (hnow : now_ms < 2 ^ 32) :
    ((Button_ReadWithDebounce raw now_ms m).1 = true ↔
      (raw = true ∧ m.buton_apasat_anterior = false ∧
        ((now_ms : Int) - (m.last_button_time : Int)) % 2 ^ 32 > 50)) ∧
    ((Button_ReadWithDebounce raw now_ms m).1 = true →
      (Button_ReadWithDebounce raw now_ms m).2.last_button_time = now_ms) ∧
    ((Button_ReadWithDebounce raw now_ms m).1 = false →
      (Button_ReadWithDebounce raw now_ms m).2.last_button_time
        = m.last_button_time) ∧
    (Button_ReadWithDebounce raw now_ms m).2.buton_apasat_anterior = raw := by
  refine ⟨?_, ?_, ?_, Button_buton_apasat_anterior raw now_ms m⟩
  · rw [Button_fires_iff]
    have hmod : ((now_ms : Int) - (m.last_button_time : Int)) % 2 ^ 32
        = (((now_ms + 2 ^ 32 - m.last_button_time) % 2 ^ 32 : Nat) : Int) := by
      omega
    rw [hmod]
    constructor
    · rintro ⟨h1, h2, h3⟩
      exact ⟨h1, h2, by exact_mod_cast h3⟩
    · rintro ⟨h1, h2, h3⟩
      exact ⟨h1, h2, by exact_mod_cast h3⟩
  · intro h
    rw [Button_last_button_time, if_pos h]
  · intro h
    rw [Button_last_button_time, if_neg (by rw [h]; decide)]

/-- C12, witness: from the startup state (level inactive, last accepted time
`0`) the polls active at 100, inactive at 130, active at 160 fire twice, and
the polls active at 100, active at 110 fire exactly once. -/
theorem C12_Button_ReadWithDebounce_contract_witness :
    (Machine.init.last_button_time < 2 ^ 32 ∧ (100 : Nat) < 2 ^ 32) ∧
    (Button_ReadWithDebounce true 100 Machine.init).1 = true ∧
    (Button_ReadWithDebounce true 100 Machine.init).2.last_button_time = 100 ∧
    pollResults Machine.init pressReleasePress = [true, false, true] ∧
    fireCount Machine.init pressReleasePress = 2 ∧
    pollResults Machine.init sustainedPress = [true, false] ∧
    fireCount Machine.init sustainedPress = 1 := by
  have h := C12_Button_ReadWithDebounce_contract Machine.init true 100
    (by decide) (by decide)
  have hf : (Button_ReadWithDebounce true 100 Machine.init).1 = true :=
    h.1.mpr ⟨rfl, rfl, by decide⟩
  exact ⟨⟨by decide, by decide⟩, hf, h.2.1 hf, by decide, by decide, by decide,
    by decide⟩

theorem pollResults_cons (m : Machine) (p : Poll) (ps : List Poll) :
    pollResults m (p :: ps) =
      (Button_ReadWithDebounce p.buton_actual p.timp_curent m).1 ::
        pollResults (Button_ReadWithDebounce p.buton_actual p.timp_curent m).2 ps :=
  rfl

theorem fireCount_cons (m : Machine) (p : Poll) (ps : List Poll) :
    fireCount m (p :: ps) =
      (if (Button_ReadWithDebounce p.buton_actual p.timp_curent m).1 = true
        then 1 else 0) +
      fireCount (Button_ReadWithDebounce p.buton_actual p.timp_curent m).2 ps := by
  unfold fireCount
  rw [pollResults_cons, List.count_cons]
  cases (Button_ReadWithDebounce p.buton_actual p.timp_curent m).1
  · simp
  · simp
    omega

/-- C13, as stated, fails: the first call after startup with the button
already read active at tick `100` fires. -/
theorem C13_first_read_counterexample :
    Machine.init.buton_apasat_anterior = false ∧
    Machine.init.last_button_time = 0 ∧
    (Button_ReadWithDebounce true 100 Machine.init).1 = true ∧
    ¬ ((Button_ReadWithDebounce true 100 Machine.init).1 = false) := by
  decide

/-- C13, amended: the first call of `Button_ReadWithDebounce` after startup
(`buton_apasat_anterior = false`, `last_button_time = 0`) with an
already-active level does not fire when the 32-bit tick `now_ms` is at most
`50`, and fires when it is greater than `50`. -/
theorem C13_first_read_amended (now_ms : Nat) (hnow : now_ms < 2 ^ 32) :
    ((Button_ReadWithDebounce true now_ms Machine.init).1 = false ↔ now_ms ≤ 50) ∧
    ((Button_ReadWithDebounce true now_ms Machine.init).1 = true ↔ 50 < now_ms) := by
  have hiff : (Button_ReadWithDebounce true now_ms Machine.init).1 = true ↔
      50 < now_ms := by
    rw [Button_fires_iff]
    have h0 : Machine.init.last_button_time = 0 := rfl
    have hp : Machine.init.buton_apasat_anterior = false := rfl
    rw [h0, hp]
    constructor
    · rintro ⟨_, _, h⟩
      omega
    · intro h
      exact ⟨rfl, rfl, by omega⟩
  refine ⟨?_, hiff⟩
  rw [← not_lt, ← hiff]
  cases (Button_ReadWithDebounce true now_ms Machine.init).1 <;> simp

/-- C13, witness: at tick `50` the first active read does not fire, at tick
`51` it does. -/
theorem C13_first_read_amended_witness :
    ((50 : Nat) < 2 ^ 32 ∧ (51 : Nat) < 2 ^ 32) ∧
    (Button_ReadWithDebounce true 50 Machine.init).1 = false ∧
    (Button_ReadWithDebounce true 51 Machine.init).1 = true :=
  ⟨by decide,
   (C13_first_read_amended 50 (by decide)).1.mpr (by decide),
   (C13_first_read_amended 51 (by decide)).2.mpr (by decide)⟩

/-- Every poll that fires is a rising edge, so there are at most as many
firing polls as rising edges. -/
theorem fireCount_le_risingEdges (ps : List Poll) :
    ∀ m : Machine, fireCount m ps ≤ risingEdges m.buton_apasat_anterior ps := by
  induction ps with
  | nil => intro m; exact Nat.le_refl 0
  | cons p ps ih =>
    intro m
    rw [fireCount_cons]
    have hrest := ih (Button_ReadWithDebounce p.buton_actual p.timp_curent m).2
    rw [Button_buton_apasat_anterior] at hrest
    show _ ≤ (if (p.buton_actual && !m.buton_apasat_anterior) = true then 1 else 0)
      + risingEdges p.buton_actual ps
    have hhead : (if (Button_ReadWithDebounce p.buton_actual p.timp_curent m).1 = true
          then 1 else 0)
        ≤ (if (p.buton_actual && !m.buton_apasat_anterior) = true then 1 else 0) := by
      by_cases hf : (Button_ReadWithDebounce p.buton_actual p.timp_curent m).1 = true
      · obtain ⟨h1, h2, _⟩ := (Button_fires_iff _ _ _).mp hf
        rw [if_pos hf, if_pos (by rw [h1, h2]; rfl)]
      · rw [if_neg hf]
        exact Nat.zero_le _
    omega

/-- A poll that follows a poll which read the button active does not fire. -/
theorem pollResults_after_active (ps : List Poll) :
    ∀ (m : Machine) (k : Nat) (p : Poll), ps[k]? = some p →
      p.buton_actual = true → (pollResults m ps)[k + 1]? ≠ some true := by
  induction ps with
  | nil => intro m k p hp; simp at hp
  | cons p0 rest ih =>
    intro m k p hp hact
    rw [pollResults_cons, List.getElem?_cons_succ]
    cases k with
    | zero =>
      simp only [List.getElem?_cons_zero, Option.some.injEq] at hp
      subst hp
      cases rest with
      | nil => simp [pollResults]
      | cons q rest2 =>
        rw [pollResults_cons, List.getElem?_cons_zero]
        intro hc
        have hf := Option.some.inj hc
        obtain ⟨_, h2, _⟩ := (Button_fires_iff _ _ _).mp hf
        rw [Button_buton_apasat_anterior, hact] at h2
        exact Bool.noConfusion h2
    | succ k =>
      rw [List.getElem?_cons_succ] at hp
      exact ih _ k p hp hact

/-- The rising edges counted by `risingEdges` are the entries of
`risingTicks`. -/
theorem risingEdges_eq_length (ps : List Poll) :
    ∀ prev : Bool, risingEdges prev ps = (risingTicks prev ps).length := by
  induction ps with
  | nil => intro prev; rfl
  | cons p ps ih =>
    intro prev
    show (if (p.buton_actual && !prev) = true then 1 else 0)
        + risingEdges p.buton_actual ps
      = (if (p.buton_actual && !prev) = true
          then p.timp_curent :: risingTicks p.buton_actual ps
          else risingTicks p.buton_actual ps).length
    rw [ih p.buton_actual]
    split
    · rw [List.length_cons]; omega
    · omega

theorem risingTicks_mem (ps : List Poll) :
    ∀ (prev : Bool) (t : Nat), t ∈ risingTicks prev ps →
      ∃ p ∈ ps, p.timp_curent = t := by
  induction ps with
  | nil => intro prev t ht; simp [risingTicks] at ht
  | cons p ps ih =>
    intro prev t ht
    have ht2 : t ∈ (if (p.buton_actual && !prev) = true
          then p.timp_curent :: risingTicks p.buton_actual ps
          else risingTicks p.buton_actual ps) := ht
    split at ht2
    · rcases List.mem_cons.mp ht2 with h | h
      · exact ⟨p, List.mem_cons_self p ps, h.symm⟩
      · obtain ⟨q, hq, hqt⟩ := ih p.buton_actual t h
        exact ⟨q, List.mem_cons_of_mem p hq, hqt⟩
    · obtain ⟨q, hq, hqt⟩ := ih p.buton_actual t ht2
      exact ⟨q, List.mem_cons_of_mem p hq, hqt⟩

/-- Every rising edge fires exactly when each rising edge passes the test of
`Button_ReadWithDebounce` against the previous rising edge, the first one
against the last accepted time of the starting state. -/
theorem fireCount_eq_iff_chain (ps : List Poll) :
    ∀ m : Machine,
      fireCount m ps = risingEdges m.buton_apasat_anterior ps ↔
        List.Chain (fun a b : Nat => (b + 2 ^ 32 - a) % 2 ^ 32 > 50)
          m.last_button_time (risingTicks m.buton_apasat_anterior ps) := by
  induction ps with
  | nil =>
    intro m
    exact ⟨fun _ => List.Chain.nil, fun _ => rfl⟩
  | cons p ps ih =>
    intro m
    have hle := fireCount_le_risingEdges ps
      (Button_ReadWithDebounce p.buton_actual p.timp_curent m).2
    have ih2 := ih (Button_ReadWithDebounce p.buton_actual p.timp_curent m).2
    rw [Button_buton_apasat_anterior] at hle ih2
    rw [fireCount_cons]
    show (_ = (if (p.buton_actual && !m.buton_apasat_anterior) = true then 1 else 0)
        + risingEdges p.buton_actual ps) ↔
      List.Chain (fun a b : Nat => (b + 2 ^ 32 - a) % 2 ^ 32 > 50) m.last_button_time
        (if (p.buton_actual && !m.buton_apasat_anterior) = true
          then p.timp_curent :: risingTicks p.buton_actual ps
          else risingTicks p.buton_actual ps)
    by_cases hedge : (p.buton_actual && !m.buton_apasat_anterior) = true
    · have hedge2 := hedge
      simp only [Bool.and_eq_true, Bool.not_eq_true'] at hedge2
      rw [if_pos hedge, if_pos hedge, List.chain_cons]
      by_cases hf : (Button_ReadWithDebounce p.buton_actual p.timp_curent m).1 = true
      · have hR := ((Button_fires_iff _ _ _).mp hf).2.2
        have hlast : (Button_ReadWithDebounce p.buton_actual p.timp_curent
            m).2.last_button_time = p.timp_curent := by
          rw [Button_last_button_time, if_pos hf]
        rw [hlast] at ih2
        rw [if_pos hf]
        constructor
        · intro h
          exact ⟨hR, ih2.mp (by omega)⟩
        · intro h
          have := ih2.mpr h.2
          omega
      · have hnR : ¬ ((p.timp_curent + 2 ^ 32 - m.last_button_time) % 2 ^ 32 > 50) :=
          fun hR => hf ((Button_fires_iff _ _ _).mpr ⟨hedge2.1, hedge2.2, hR⟩)
        rw [if_neg hf]
        constructor
        · intro h
          omega
        · intro h
          exact absurd h.1 hnR
    · have hf : ¬ ((Button_ReadWithDebounce p.buton_actual p.timp_curent m).1 = true) := by
        intro hf
        obtain ⟨h1, h2, _⟩ := (Button_fires_iff _ _ _).mp hf
        exact hedge (by rw [h1, h2]; rfl)
      have hlast : (Button_ReadWithDebounce p.buton_actual p.timp_curent
          m).2.last_button_time = m.last_button_time := by
        rw [Button_last_button_time, if_neg hf]
      rw [hlast] at ih2
      rw [if_neg hedge, if_neg hedge, if_neg hf, Nat.zero_add, Nat.zero_add]
      exact ih2

/-- For 32-bit values the test of `Button_ReadWithDebounce` along a list of
ticks is the comparison of the differences modulo `2^32` with `50`. -/
theorem chain_debounce_int_iff (l : List Nat) :
    ∀ a : Nat, a < 2 ^ 32 → (∀ x ∈ l, x < 2 ^ 32) →
      (List.Chain (fun a b : Nat => ((b : Int) - (a : Int)) % 2 ^ 32 > 50) a l ↔
        List.Chain (fun a b : Nat => (b + 2 ^ 32 - a) % 2 ^ 32 > 50) a l) := by
  induction l with
  | nil => intro a _ _; exact ⟨fun _ => List.Chain.nil, fun _ => List.Chain.nil⟩
  | cons x l ih =>
    intro a ha hl
    have hx := hl x (List.mem_cons_self x l)
    have hrest := ih x hx (fun y hy => hl y (List.mem_cons_of_mem x hy))
    have hmod : ((x : Int) - (a : Int)) % 2 ^ 32
        = (((x + 2 ^ 32 - a) % 2 ^ 32 : Nat) : Int) := by
      omega
    rw [List.chain_cons, List.chain_cons, hrest]
    constructor
    · rintro ⟨h1, h2⟩
      refine ⟨?_, h2⟩
      have h1b : ((x : Int) - (a : Int)) % 2 ^ 32 > 50 := h1
      rw [hmod] at h1b
      exact_mod_cast h1b
    · rintro ⟨h1, h2⟩
      refine ⟨?_, h2⟩
      show ((x : Int) - (a : Int)) % 2 ^ 32 > 50
      rw [hmod]
      have h1b : (x + 2 ^ 32 - a) % 2 ^ 32 > 50 := h1
      exact_mod_cast h1b

/-- Ticks below `2^32` that are more than 50 ms apart from each other, and
more than 50 ms after `a`, pass the test of `Button_ReadWithDebounce` one
after the other. -/
theorem chain_debounce_of_spaced (l : List Nat) :
    ∀ a : Nat, (∀ x ∈ l, a + 50 < x ∧ x < 2 ^ 32) →
      l.Pairwise (fun x y => x + 50 < y) →
      List.Chain (fun a b : Nat => (b + 2 ^ 32 - a) % 2 ^ 32 > 50) a l := by
  induction l with
  | nil => intro a _ _; exact List.Chain.nil
  | cons x l ih =>
    intro a h hp
    have hx := h x (List.mem_cons_self x l)
    have hp2 := List.pairwise_cons.mp hp
    refine List.Chain.cons ?_ (ih x (fun y hy =>
      ⟨hp2.1 y hy, (h y (List.mem_cons_of_mem x hy)).2⟩) hp2.2)
    show (x + 2 ^ 32 - a) % 2 ^ 32 > 50
    omega

/-- C14, as stated, fails: from the startup state the polls active at 100,
inactive at 110, active at 120 (non-decreasing ticks) contain two polls at
which the level is active while the previous level was inactive, but only the
first of them fires: the second one is within 50 ms of the accepted one. -/
theorem C14_one_event_per_transition_counterexample :
    bouncingPress.Pairwise (fun a b => a.timp_curent ≤ b.timp_curent) ∧
    pollResults Machine.init bouncingPress = [true, false, false] ∧
    fireCount Machine.init bouncingPress = 1 ∧
    risingEdges Machine.init.buton_apasat_anterior bouncingPress = 2 ∧
    ¬ (fireCount Machine.init bouncingPress
        = risingEdges Machine.init.buton_apasat_anterior bouncingPress) := by
  refine ⟨?_, by decide, by decide, by decide, by decide⟩
  simp [bouncingPress]

/-- C14, amended: a sustained press produces at most one event per level
transition, not one per poll. For every sequence of polls from every state,
the number of polls that fire is at most the number of polls at which the
level read is active while the level recorded at the previous poll was
inactive, and no poll fires when the previous poll also read active. With
32-bit ticks the two numbers are equal exactly when each such rising-edge
poll comes more than 50 ms, the difference taken modulo `2^32`, after the
rising-edge poll before it, the first one after the last accepted time of the
starting state; in particular they are equal when the rising-edge polls are
below `2^32`, more than 50 ms after the last accepted time and more than
50 ms apart from each other. -/
theorem C14_one_event_per_transition_amended :
    (∀ (m : Machine) (ps : List Poll),
      fireCount m ps ≤ risingEdges m.buton_apasat_anterior ps) ∧
    (∀ (m : Machine) (ps : List Poll) (k : Nat) (p : Poll),
      ps[k]? = some p → p.buton_actual = true →
      (pollResults m ps)[k + 1]? ≠ some true) ∧
    (∀ (m : Machine) (ps : List Poll),
      m.last_button_time < 2 ^ 32 → (∀ p ∈ ps, p.timp_curent < 2 ^ 32) →
      (fireCount m ps = risingEdges m.buton_apasat_anterior ps ↔
        List.Chain (fun a b : Nat => ((b : Int) - (a : Int)) % 2 ^ 32 > 50)
          m.last_button_time (risingTicks m.buton_apasat_anterior ps))) ∧
    (∀ (m : Machine) (ps : List Poll),
      (∀ t ∈ risingTicks m.buton_apasat_anterior ps,
        m.last_button_time + 50 < t ∧ t < 2 ^ 32) →
      (risingTicks m.buton_apasat_anterior ps).Pairwise (fun a b => a + 50 < b) →
      fireCount m ps = risingEdges m.buton_apasat_anterior ps) := by
  refine ⟨fun m ps => fireCount_le_risingEdges ps m,
    fun m ps k p hp hact => pollResults_after_active ps m k p hp hact, ?_, ?_⟩
  · intro m ps hlast hticks
    rw [fireCount_eq_iff_chain ps m]
    refine (chain_debounce_int_iff _ m.last_button_time hlast ?_).symm
    intro t ht
    obtain ⟨p, hp, hpt⟩ := risingTicks_mem ps _ t ht
    rw [← hpt]
    exact hticks p hp
  · intro m ps hl hs
    exact (fireCount_eq_iff_chain ps m).mpr
      (chain_debounce_of_spaced _ m.last_button_time hl hs)

/-- C14, witness: the sustained press (active at 100 and at 110) has one
rising edge, its second poll does not fire and it fires once; the press,
release, press sequence at 100, 130, 160 has rising edges at 100 and 160 and
fires twice; so does the sequence at 100, 200, 300. -/
theorem C14_one_event_per_transition_amended_witness :
    fireCount Machine.init sustainedPress
      ≤ risingEdges Machine.init.buton_apasat_anterior sustainedPress ∧
    (pollResults Machine.init sustainedPress)[0 + 1]? ≠ some true ∧
    (risingTicks Machine.init.buton_apasat_anterior sustainedPress = [100] ∧
      fireCount Machine.init sustainedPress
        = risingEdges Machine.init.buton_apasat_anterior sustainedPress) ∧
    (risingTicks Machine.init.buton_apasat_anterior pressReleasePress = [100, 160] ∧
      fireCount Machine.init pressReleasePress
        = risingEdges Machine.init.buton_apasat_anterior pressReleasePress) ∧
    fireCount Machine.init spacedPresses
      = risingEdges Machine.init.buton_apasat_anterior spacedPresses := by
  have hs : risingTicks Machine.init.buton_apasat_anterior sustainedPress = [100] := by
    decide
  have hp : risingTicks Machine.init.buton_apasat_anterior pressReleasePress
      = [100, 160] := by
    decide
  have hq : risingTicks Machine.init.buton_apasat_anterior spacedPresses
      = [100, 300] := by
    decide
  refine ⟨C14_one_event_per_transition_amended.1 Machine.init sustainedPress,
    C14_one_event_per_transition_amended.2.1 Machine.init sustainedPress 0
      { buton_actual := true, timp_curent := 100 } rfl rfl,
    ⟨hs, ?_⟩, ⟨hp, ?_⟩, ?_⟩
  · refine (C14_one_event_per_transition_amended.2.2.1 Machine.init sustainedPress
      (by decide) ?_).mpr ?_
    · intro p hp
      simp only [sustainedPress, List.mem_cons, List.mem_singleton,
        List.not_mem_nil, or_false] at hp
      rcases hp with h | h <;> subst h <;> decide
    · rw [hs]
      exact List.Chain.cons (by decide) List.Chain.nil
  · refine C14_one_event_per_transition_amended.2.2.2 Machine.init pressReleasePress
      ?_ ?_
    · rw [hp]
      intro t ht
      simp only [List.mem_cons, List.mem_singleton, List.not_mem_nil, or_false] at ht
      rcases ht with h | h <;> subst h <;> decide
    · rw [hp]
      simp
  · refine C14_one_event_per_transition_amended.2.2.2 Machine.init spacedPresses
      ?_ ?_
    · rw [hq]
      intro t ht
      simp only [List.mem_cons, List.mem_singleton, List.not_mem_nil, or_false] at ht
      rcases ht with h | h <;> subst h <;> decide
    · rw [hq]
      simp

/-- With non-decreasing 32-bit ticks that are not before the last accepted
time, a poll that fires comes more than 50 ms after the last accepted time,
and of two polls that fire the later comes more than 50 ms after the
earlier. -/
theorem pollResults_spacing (ps : List Poll) :
    ∀ m : Machine,
      ps.Pairwise (fun a b => a.timp_curent ≤ b.timp_curent) →
      (∀ p ∈ ps, p.timp_curent < 2 ^ 32) →
      (∀ p ∈ ps, m.last_button_time ≤ p.timp_curent) →
      (∀ (i : Nat) (p : Poll), ps[i]? = some p →
        (pollResults m ps)[i]? = some true →
        m.last_button_time + 50 < p.timp_curent) ∧
      (∀ (i j : Nat) (p q : Poll), i < j → ps[i]? = some p → ps[j]? = some q →
        (pollResults m ps)[i]? = some true → (pollResults m ps)[j]? = some true →
        p.timp_curent + 50 < q.timp_curent) := by
  induction ps with
  | nil =>
    intro m _ _ _
    constructor
    · intro i p hp
      simp at hp
    · intro i j p q _ hp
      simp at hp
  | cons p0 rest ih =>
    intro m hs hb hl
    have hs' := List.pairwise_cons.mp hs
    have hb0 := hb p0 (List.mem_cons_self p0 rest)
    have hl0 := hl p0 (List.mem_cons_self p0 rest)
    have hge : m.last_button_time ≤
        (Button_ReadWithDebounce p0.buton_actual p0.timp_curent m).2.last_button_time := by
      rw [Button_last_button_time]
      split
      · exact hl0
      · exact le_rfl
    have hfire : (Button_ReadWithDebounce p0.buton_actual p0.timp_curent m).1 = true →
        m.last_button_time + 50 < p0.timp_curent ∧
        (Button_ReadWithDebounce p0.buton_actual p0.timp_curent m).2.last_button_time
          = p0.timp_curent := by
      intro hf
      obtain ⟨_, _, h3⟩ := (Button_fires_iff _ _ _).mp hf
      refine ⟨by omega, ?_⟩
      rw [Button_last_button_time, if_pos hf]
    obtain ⟨ihA, ihB⟩ := ih (Button_ReadWithDebounce p0.buton_actual p0.timp_curent m).2
      hs'.2 (fun q hq => hb q (List.mem_cons_of_mem p0 hq))
      (by
        intro q hq
        rw [Button_last_button_time]
        split
        · exact hs'.1 q hq
        · exact hl q (List.mem_cons_of_mem p0 hq))
    constructor
    · intro i p hp hr
      rw [pollResults_cons] at hr
      cases i with
      | zero =>
        simp only [List.getElem?_cons_zero, Option.some.injEq] at hp hr
        subst hp
        exact (hfire hr).1
      | succ i =>
        rw [List.getElem?_cons_succ] at hp hr
        have := ihA i p hp hr
        omega
    · intro i j p q hij hp hq hri hrj
      rw [pollResults_cons] at hri hrj
      cases j with
      | zero => omega
      | succ j =>
        rw [List.getElem?_cons_succ] at hq hrj
        cases i with
        | zero =>
          simp only [List.getElem?_cons_zero, Option.some.injEq] at hp hri
          subst hp
          have h1 := ihA j q hq hrj
          rw [(hfire hri).2] at h1
          exact h1
        | succ i =>
          rw [List.getElem?_cons_succ] at hp hri
          exact ihB i j p q (by omega) hp hq hri hrj

/-- C18: debounce spacing. For every sequence of polls of
`Button_ReadWithDebounce` from the startup state (level inactive, last
accepted time `0`) with non-decreasing tick times below `2^32`, every poll
that fires happens at a tick greater than `50`, and any two distinct polls
that fire are at tick times differing by more than 50 ms. -/
theorem C18_debounce_spacing (ps : List Poll)
    (hsorted : ps.Pairwise (fun a b => a.timp_curent ≤ b.timp_curent))
    (hbound : ∀ p ∈ ps, p.timp_curent < 2 ^ 32) :
    (∀ (i : Nat) (p : Poll), ps[i]? = some p →
      (pollResults Machine.init ps)[i]? = some true → 50 < p.timp_curent) ∧
    (∀ (i j : Nat) (p q : Poll), i ≠ j → ps[i]? = some p → ps[j]? = some q →
      (pollResults Machine.init ps)[i]? = some true →
      (pollResults Machine.init ps)[j]? = some true →
      (p.timp_curent + 50 < q.timp_curent ∨ q.timp_curent + 50 < p.timp_curent)) := by
  obtain ⟨hA, hB⟩ := pollResults_spacing ps Machine.init hsorted hbound
    (fun p _ => Nat.zero_le _)
  constructor
  · intro i p hp hr
    have h := hA i p hp hr
    have h0 : Machine.init.last_button_time = 0 := rfl
    omega
  · intro i j p q hij hp hq hri hrj
    rcases Nat.lt_or_gt_of_ne hij with h | h
    · exact Or.inl (hB i j p q h hp hq hri hrj)
    · exact Or.inr (hB j i q p h hq hp hrj hri)

/-- C18, witness: in the press, release, press sequence at 100, 130 and 160
the first and the third poll fire, at ticks above 50 and 60 ms apart. -/
theorem C18_debounce_spacing_witness :
    pressReleasePress.Pairwise (fun a b => a.timp_curent ≤ b.timp_curent) ∧
    (pollResults Machine.init pressReleasePress)[0]? = some true ∧
    (pollResults Machine.init pressReleasePress)[2]? = some true ∧
    (50 < 100 ∧ 50 < 160) ∧
    ((100 + 50 < 160) ∨ (160 + 50 < 100)) := by
  have hs : pressReleasePress.Pairwise (fun a b => a.timp_curent ≤ b.timp_curent) := by
    simp [pressReleasePress]
  have hb : ∀ p ∈ pressReleasePress, p.timp_curent < 2 ^ 32 := by
    intro p hp
    simp only [pressReleasePress, List.mem_cons, List.mem_singleton,
      List.not_mem_nil, or_false] at hp
    rcases hp with h | h | h <;> subst h <;> decide
  have h := C18_debounce_spacing pressReleasePress hs hb
  exact ⟨hs, by decide, by decide,
    ⟨h.1 0 { buton_actual := true, timp_curent := 100 } rfl (by decide),
     h.1 2 { buton_actual := true, timp_curent := 160 } rfl (by decide)⟩,
    h.2 0 2 { buton_actual := true, timp_curent := 100 }
      { buton_actual := true, timp_curent := 160 } (by decide) rfl rfl
      (by decide) (by decide)⟩

/-! ### The clock -/

/-- C15, as stated, fails: both readings are valid and 1 February 00:00:00
is later than 31 January 23:59:59 of the same year, but the timestamp
computed from the day of the month drops from `2764799` to `86400`. -/
theorem C15_clock_monotone_counterexample :
    validReading jan31 endOfDay ∧ validReading feb01 midnight ∧
    laterOrEqual jan31 endOfDay feb01 midnight ∧
    DS1307_GetTimestamp (some endOfDay) (some jan31) 0 = 2764799 ∧
    DS1307_GetTimestamp (some midnight) (some feb01) 0 = 86400 ∧
    ¬ (DS1307_GetTimestamp (some midnight) (some feb01) 0
        ≥ DS1307_GetTimestamp (some endOfDay) (some jan31) 0) := by
  decide

/-- C15, amended: for two successful RTC readings of the same month and
year, with fields in their valid ranges, where the second is later than or
equal to the first, the timestamp `DS1307_GetTimestamp` computes from the
second is greater than or equal to the one it computes from the first. -/
theorem C15_clock_monotone_amended (d1 d2 : RTC_DateTypeDef)
    (t1 t2 : RTC_TimeTypeDef) (tick1 tick2 : Nat)
    (hv1 : validReading d1 t1) (hv2 : validReading d2 t2)
    (hyear : d1.Year = d2.Year) (hmonth : d1.Month = d2.Month)
    (hle : laterOrEqual d1 t1 d2 t2) :
    DS1307_GetTimestamp (some t2) (some d2) tick2
      ≥ DS1307_GetTimestamp (some t1) (some d1) tick1 := by
  unfold validReading at hv1 hv2
  unfold laterOrEqual at hle
  simp only [DS1307_GetTimestamp, UINT32_MOD]
  rw [Nat.mod_eq_of_lt (by omega), Nat.mod_eq_of_lt (by omega)]
  omega

/-- C15, witness: 30 January 23:59:59 and 31 January 00:00:00. -/
theorem C15_clock_monotone_amended_witness :
    (validReading jan30 endOfDay ∧ validReading jan31 midnight ∧
      jan30.Year = jan31.Year ∧ jan30.Month = jan31.Month ∧
      laterOrEqual jan30 endOfDay jan31 midnight) ∧
    DS1307_GetTimestamp (some midnight) (some jan31) 0
      ≥ DS1307_GetTimestamp (some endOfDay) (some jan30) 0 :=
  ⟨by decide,
   C15_clock_monotone_amended jan30 jan31 endOfDay midnight 0 0 (by decide)
     (by decide) (by decide) (by decide) (by decide)⟩

/-! ### The coin counter -/

theorem tick_monede_primite (m : Machine) (e : TickEvents) :
    (tick m e).parking_state.monede_primite =
      if e.moneda_primita = true then (m.parking_state.monede_primite + 1) % 2 ^ 32
      else m.parking_state.monede_primite := by
  rw [tick_parking_state, UpdateReservationStatus_monede_primite,
    ProcessOccupancy_monede_primite]
  cases e.moneda_primita
  · simp
  · simp [ProcessCoin_monede_primite]

theorem run_monede_primite (es : List TickEvents) :
    ∀ m : Machine, m.parking_state.monede_primite < 2 ^ 32 →
      (run m es).parking_state.monede_primite =
        (m.parking_state.monede_primite
          + es.countP (fun e => e.moneda_primita)) % 2 ^ 32 := by
  induction es with
  | nil =>
    intro m hm
    show m.parking_state.monede_primite = _
    rw [List.countP_nil, Nat.add_zero, Nat.mod_eq_of_lt hm]
  | cons e es ih =>
    intro m hm
    have hstep : run m (e :: es) = run (tick m e) es := rfl
    have hlt : (tick m e).parking_state.monede_primite < 2 ^ 32 := by
      rw [tick_monede_primite]
      split
      · exact Nat.mod_lt _ (by decide)
      · exact hm
    rw [hstep, ih (tick m e) hlt, tick_monede_primite, List.countP_cons]
    cases e.moneda_primita
    · simp
    · simp only [if_true]
      omega

/-- C17: `coins_received` is a cumulative counter that is never reset.
`ProcessCoin` increases it by exactly one modulo `2^32`; occupancy handling,
`UpdateReservationStatus`, `CheckControllerAlert` and `ProcessUARTCommand`
leave it unchanged; so after any run of ticks from the zero-initialised state
that contains `n` payment events, `n < 2^32`, `coins_received = n`. -/
theorem C17_coins_counter :
    (∀ (m : Machine) (now : Nat),
      (ProcessCoin now m).parking_state.monede_primite
        = (m.parking_state.monede_primite + 1) % 2 ^ 32) ∧
    (∀ (m : Machine) (p : Bool) (now : Nat),
      (ProcessOccupancy p now m).parking_state.monede_primite
        = m.parking_state.monede_primite) ∧
    (∀ (m : Machine) (now : Nat),
      (UpdateReservationStatus now m).parking_state.monede_primite
        = m.parking_state.monede_primite) ∧
    (∀ (m : Machine) (now : Nat),
      (CheckControllerAlert now m).parking_state.monede_primite
        = m.parking_state.monede_primite) ∧
    (∀ (m : Machine) (received : Option Nat) (now : Nat),
      (ProcessUARTCommand received now m).parking_state.monede_primite
        = m.parking_state.monede_primite) ∧
    (∀ es : List TickEvents,
      es.countP (fun e => e.moneda_primita) < 2 ^ 32 →
      (run Machine.init es).parking_state.monede_primite
        = es.countP (fun e => e.moneda_primita)) := by
  refine ⟨fun m now => ProcessCoin_monede_primite now m,
    fun m p now => ProcessOccupancy_monede_primite p now m,
    fun m now => UpdateReservationStatus_monede_primite now m, ?_, ?_, ?_⟩
  · intro m now
    rw [CheckControllerAlert_parking_state]
  · intro m received now
    rw [ProcessUARTCommand_parking_state]
  · intro es hn
    have h := run_monede_primite es Machine.init (by decide)
    have h0 : Machine.init.parking_state.monede_primite = 0 := rfl
    rw [h, h0, Nat.zero_add, Nat.mod_eq_of_lt hn]

/-- C17, witness: the run with one payment (at `now = 0`) followed by a tick
without payment ends with `coins_received = 1`. -/
theorem C17_coins_counter_witness :
    paidThenExpired.countP (fun e => e.moneda_primita) = 1 ∧
    paidThenExpired.countP (fun e => e.moneda_primita) < 2 ^ 32 ∧
    (run Machine.init paidThenExpired).parking_state.monede_primite = 1 := by
  have hc : paidThenExpired.countP (fun e => e.moneda_primita) = 1 := by decide
  have h := C17_coins_counter.2.2.2.2.2 paidThenExpired (by rw [hc]; decide)
  rw [hc] at h
  exact ⟨hc, by rw [hc]; decide, h⟩

end AutomatParcare
